import Mathlib

/-!
# Verification of the mcp-sgf ingestion / validation / move-resolution core

A shallow embedding of the mcp-sgf server core:

* `src/utils/validation.ts` — Zod argument/content schemas and their error mapping,
* `src/utils/sgfParser.ts` — size ceiling, game-info extraction, move counting,
* `src/utils/diagramRenderer.ts` — selector validation and diagram resolution,
* `src/tools/getSgfInfo.ts` and `src/tools/getSgfDiagram.ts` — the two tool handlers.

Strings are embedded as `List Char` so that JavaScript string operations
(trim, per-code-point filters, UTF-8 byte length) can be reasoned about by
induction.  JavaScript numbers are embedded as exact rationals extended with
the two infinities (`JsNum`); the inputs manipulated by this code are decimal
literals from SGF property values and JSON integers, for which rational
arithmetic coincides with IEEE double arithmetic.

The `@sabaki/sgf` tree parser is an external dependency of the repository
(only its type declarations ship with the source); it is modelled from the
spec, see `parseSgf` below.  The `sgf-to-image` renderer is likewise external
and is modelled as an opaque function supplied to the diagram pipeline.
-/

namespace McpSgf

/-- A JavaScript string, embedded as a list of Unicode scalar values. -/
abbrev Str := List Char

/-- The whitespace class used by JavaScript `String.prototype.trim`
(ASCII whitespace, NBSP and the BOM; the exotic Unicode space separators,
which no theorem below touches, are omitted). -/
def isJsWs (c : Char) : Bool :=
  c == ' ' || c == '\t' || c == '\n' || c == '\r' ||
  c == '\x0b' || c == '\x0c' || c == ' ' || c == '﻿'

/-- JavaScript `trim` from the left: drop leading whitespace. -/
def trimLeft (l : Str) : Str := l.dropWhile isJsWs

/-- JavaScript `trim` from the right: drop trailing whitespace. -/
def trimRight (l : Str) : Str := (l.reverse.dropWhile isJsWs).reverse

/-- JavaScript `String.prototype.trim`. -/
def jsTrim (l : Str) : Str := trimRight (trimLeft l)

/-- `startsWith "("` for a single-character prefix: test the head. -/
def headIs (l : Str) (c : Char) : Bool :=
  match l with
  | [] => false
  | d :: _ => d == c

/-- `endsWith ")"` for a single-character suffix: test the last element. -/
def lastIs (l : Str) (c : Char) : Bool :=
  match l.getLast? with
  | some d => d == c
  | none => false

/-- `String.prototype.includes` for a single character. -/
def hasChar (l : Str) (c : Char) : Bool := l.any (· == c)

/-- UTF-8 length in bytes of one Unicode scalar value
(`Buffer.byteLength` counts these). -/
def utf8Len (c : Char) : Nat :=
  if c.toNat < 0x80 then 1
  else if c.toNat < 0x800 then 2
  else if c.toNat < 0x10000 then 3
  else 4

/-- UTF-16 length in code units of one Unicode scalar value
(JavaScript `String.prototype.length` counts these). -/
def utf16Len (c : Char) : Nat :=
  if c.toNat < 0x10000 then 1 else 2

/-- `Buffer.byteLength(s, 'utf8')`. -/
def byteLen (l : Str) : Nat := (l.map utf8Len).sum

/-- JavaScript `s.length` (UTF-16 code units). -/
def jsLen (l : Str) : Nat := (l.map utf16Len).sum

theorem utf16Len_le_utf8Len (c : Char) : utf16Len c ≤ utf8Len c := by
  unfold utf16Len utf8Len
  split_ifs <;> omega

theorem jsLen_le_byteLen (l : Str) : jsLen l ≤ byteLen l := by
  induction l with
  | nil => simp [jsLen, byteLen]
  | cons c l ih =>
      simp only [jsLen, byteLen, List.map_cons, List.sum_cons] at *
      exact Nat.add_le_add (utf16Len_le_utf8Len c) ih

theorem byteLen_append (l₁ l₂ : Str) :
    byteLen (l₁ ++ l₂) = byteLen l₁ + byteLen l₂ := by
  simp [byteLen]

theorem jsLen_append (l₁ l₂ : Str) :
    jsLen (l₁ ++ l₂) = jsLen l₁ + jsLen l₂ := by
  simp [jsLen]

theorem byteLen_replicate (n : Nat) (c : Char) :
    byteLen (List.replicate n c) = n * utf8Len c := by
  induction n with
  | zero => simp [byteLen]
  | succ n ih =>
      simp only [List.replicate_succ, byteLen, List.map_cons, List.sum_cons] at *
      rw [ih]; ring

theorem jsLen_replicate (n : Nat) (c : Char) :
    jsLen (List.replicate n c) = n * utf16Len c := by
  induction n with
  | zero => simp [jsLen]
  | succ n ih =>
      simp only [List.replicate_succ, jsLen, List.map_cons, List.sum_cons] at *
      rw [ih]; ring

theorem byteLen_cons (c : Char) (l : Str) :
    byteLen (c :: l) = utf8Len c + byteLen l := by
  simp [byteLen]

theorem byteLen_filter_le (p : Char → Bool) (l : Str) :
    byteLen (l.filter p) ≤ byteLen l := by
  induction l with
  | nil => simp [byteLen]
  | cons c l ih =>
      by_cases h : p c
      · simp only [List.filter_cons, h, if_true, byteLen_cons]
        omega
      · simp only [List.filter_cons, h, Bool.false_eq_true, if_false, byteLen_cons]
        omega

theorem byteLen_dropWhile_le (p : Char → Bool) (l : Str) :
    byteLen (l.dropWhile p) ≤ byteLen l := by
  induction l with
  | nil => simp [byteLen]
  | cons c l ih =>
      by_cases h : p c
      · simp only [List.dropWhile_cons, h, if_true, byteLen_cons]
        omega
      · simp [List.dropWhile_cons, h]

theorem byteLen_reverse (l : Str) : byteLen l.reverse = byteLen l := by
  simp [byteLen, List.sum_reverse]

theorem byteLen_trim_le (l : Str) : byteLen (jsTrim l) ≤ byteLen l := by
  unfold jsTrim trimRight trimLeft
  calc byteLen ((trimLeft l).reverse.dropWhile isJsWs).reverse
      = byteLen ((trimLeft l).reverse.dropWhile isJsWs) := byteLen_reverse _
    _ ≤ byteLen (trimLeft l).reverse := byteLen_dropWhile_le _ _
    _ = byteLen (trimLeft l) := byteLen_reverse _
    _ ≤ byteLen l := byteLen_dropWhile_le _ _

/-- A list whose first and last characters are not whitespace is fixed by `trim`. -/
theorem jsTrim_eq_self (l : Str) (c d : Char) (mid : Str)
    (hl : l = c :: (mid ++ [d])) (hc : isJsWs c = false) (hd : isJsWs d = false) :
    jsTrim l = l := by
  subst hl
  have hL : trimLeft (c :: (mid ++ [d])) = c :: (mid ++ [d]) := by
    unfold trimLeft
    simp [List.dropWhile_cons, hc]
  have hrev : (c :: (mid ++ [d])).reverse = d :: (mid.reverse ++ [c]) := by
    simp
  have hR : trimRight (c :: (mid ++ [d])) = c :: (mid ++ [d]) := by
    unfold trimRight
    rw [hrev, List.dropWhile_cons]
    simp only [hd, Bool.false_eq_true, if_false]
    rw [← hrev, List.reverse_reverse]
  unfold jsTrim
  rw [hL, hR]

/-! ## JavaScript numbers

The values flowing through this code are decimal literals from SGF property
values and JSON integers; they are embedded as exact rationals extended with
the two infinities.  `NaN` never needs a representative: every operation that
could produce it (`parseFloat`, `parseInt`) is embedded with an `Option`
result, `none` standing for `NaN`, exactly mirroring the `isNaN` guards in the
source. -/

/-- A JavaScript number that is not `NaN`. -/
inductive JsNum where
  | num (q : ℚ)
  | inf
  | negInf
deriving DecidableEq, Repr

/-- JavaScript `x < q` for a finite right-hand side. -/
def JsNum.ltQ : JsNum → ℚ → Bool
  | .num x, q => decide (x < q)
  | .inf, _ => false
  | .negInf, _ => true

/-- JavaScript `x > q` for a finite right-hand side. -/
def JsNum.gtQ : JsNum → ℚ → Bool
  | .num x, q => decide (q < x)
  | .inf, _ => true
  | .negInf, _ => false

/-- JavaScript falsiness of an optional number (`undefined`, `0` and `NaN`
are falsy; `NaN` is `none` here, merged with `undefined`). -/
def jsFalsyNum : Option JsNum → Bool
  | none => true
  | some (.num q) => decide (q = 0)
  | some _ => false

def isDigitCh (c : Char) : Bool := '0' ≤ c && c ≤ '9'

def isHexDigitCh (c : Char) : Bool :=
  isDigitCh c || ('a' ≤ c && c ≤ 'f') || ('A' ≤ c && c ≤ 'F')

def digitVal (c : Char) : Nat :=
  if '0' ≤ c && c ≤ '9' then c.toNat - '0'.toNat
  else if 'a' ≤ c && c ≤ 'f' then c.toNat - 'a'.toNat + 10
  else if 'A' ≤ c && c ≤ 'F' then c.toNat - 'A'.toNat + 10
  else 0

def digitsToNat (base : Nat) (ds : Str) : Nat :=
  ds.foldl (fun n c => base * n + digitVal c) 0

/-- Model of JavaScript `parseFloat`: skip leading whitespace, optional sign,
then the longest prefix that is an `Infinity` literal or a decimal literal
with optional fraction and exponent.  `none` models `NaN` (no parsable
prefix).  The rational value is assembled with `mkRat` over integer
arithmetic so that it evaluates inside the kernel. -/
def parseFloatJs (l : Str) : Option JsNum :=
  let l₁ := l.dropWhile isJsWs
  let (neg, l₂) : Bool × Str :=
    match l₁ with
    | '-' :: r => (true, r)
    | '+' :: r => (false, r)
    | r => (false, r)
  if ("Infinity".toList).isPrefixOf l₂ then
    some (if neg then .negInf else .inf)
  else
    let intDs := l₂.takeWhile isDigitCh
    let l₃ := l₂.dropWhile isDigitCh
    let (fracDs, l₄) : Str × Str :=
      match l₃ with
      | '.' :: r => (r.takeWhile isDigitCh, r.dropWhile isDigitCh)
      | r => ([], r)
    if intDs = [] ∧ fracDs = [] then none
    else
      let f := fracDs.length
      let mantN : Nat := digitsToNat 10 intDs * 10 ^ f + digitsToNat 10 fracDs
      let mantZ : Int := if neg then -(mantN : Int) else (mantN : Int)
      let expPart : ℤ :=
        match l₄ with
        | 'e' :: r | 'E' :: r =>
            let (esgn, r') : ℤ × Str :=
              match r with
              | '-' :: r' => (-1, r')
              | '+' :: r' => (1, r')
              | r' => (1, r')
            let eDs := r'.takeWhile isDigitCh
            if eDs = [] then 0 else esgn * (digitsToNat 10 eDs : ℤ)
        | _ => 0
      some (.num (if 0 ≤ expPart then
        mkRat (mantZ * (10 : Int) ^ expPart.toNat) (10 ^ f)
      else
        mkRat mantZ (10 ^ f * 10 ^ (-expPart).toNat)))

/-- Model of JavaScript `parseInt` with no radix argument: skip leading
whitespace, optional sign, `0x`/`0X` prefix selects base 16, then the longest
run of digits; `none` models `NaN`. -/
def parseIntJs (l : Str) : Option Int :=
  let l₁ := l.dropWhile isJsWs
  let (sgn, l₂) : Int × Str :=
    match l₁ with
    | '-' :: r => (-1, r)
    | '+' :: r => (1, r)
    | r => (1, r)
  match l₂ with
  | '0' :: 'x' :: r | '0' :: 'X' :: r =>
      let ds := r.takeWhile isHexDigitCh
      if ds = [] then none else some (sgn * (digitsToNat 16 ds : Int))
  | r =>
      let ds := r.takeWhile isDigitCh
      if ds = [] then none else some (sgn * (digitsToNat 10 ds : Int))

/-! ## The game tree and the tree parser

The node shape mirrors the `SgfNode` interface of `src/utils/sgfParser.ts`
(`data : Record<string, string[]>`, `children : SgfNode[]`; the numeric
`id`/`parentId` fields are never read by the embedded code and are omitted).
The parser itself is the external `@sabaki/sgf` dependency. -/

/-- One node of a parsed game tree: a property map and the child subtrees. -/
inductive SgfNode where
  | mk (data : List (String × List Str)) (children : List SgfNode)

def SgfNode.data : SgfNode → List (String × List Str)
  | .mk d _ => d

def SgfNode.children : SgfNode → List SgfNode
  | .mk _ c => c

/-- Key presence in a property map (`properties.B || properties.W` tests for
the key: any array value is truthy in JavaScript). -/
def hasMoveProp (props : List (String × List Str)) : Bool :=
  (props.lookup "B").isSome || (props.lookup "W").isSome

mutual

/-- `countMoves` from `src/utils/sgfParser.ts`: depth-first over every
branch, incrementing once per node whose properties contain `B` or `W`. -/
def countMoves : SgfNode → Nat
  | .mk data children => (if hasMoveProp data then 1 else 0) + countMovesList children

def countMovesList : List SgfNode → Nat
  | [] => 0
  | t :: ts => countMoves t + countMovesList ts

end

mutual

/-- The property maps of every node of the tree, all branches included. -/
def allNodeData : SgfNode → List (List (String × List Str))
  | .mk data children => data :: allNodeDataList children

def allNodeDataList : List SgfNode → List (List (String × List Str))
  | [] => []
  | t :: ts => allNodeData t ++ allNodeDataList ts

end

def isUpperCh (c : Char) : Bool := 'A' ≤ c && c ≤ 'Z'

/-- Modelled from the spec (§4.2 Tree Parser): scan one bracketed property
value after the opening `[`; a backslash escapes the following character so
that literal `]` and `\` can occur inside a value. Returns the value and the
remaining input after the closing `]`, or `none` if the value is
unterminated. -/
def scanValue : Nat → Str → Option (Str × Str)
  | 0, _ => none
  | _, [] => none
  | fuel + 1, c :: rest =>
      if c == ']' then some ([], rest)
      else if c == '\\' then
        match rest with
        | [] => none
        | d :: rest' =>
            match scanValue fuel rest' with
            | some (v, r) => some (d :: v, r)
            | none => none
      else
        match scanValue fuel rest with
        | some (v, r) => some (c :: v, r)
        | none => none

/-- Modelled from the spec: the bracketed values of one property (one or
more `[...]` groups, whitespace permitted in between). -/
def parseValues : Nat → Str → Except String (List Str × Str)
  | 0, _ => .error "parse fuel exhausted"
  | fuel + 1, l =>
      let l' := l.dropWhile isJsWs
      match l' with
      | '[' :: r =>
          match scanValue (r.length + 1) r with
          | none => .error "unterminated property value"
          | some (v, rest) =>
              match parseValues fuel rest with
              | .ok (vs, rest') => .ok (v :: vs, rest')
              | .error e => .error e
      | _ => .ok ([], l')

/-- Modelled from the spec: the properties of one node (uppercase tag of one
or more letters, each followed by at least one bracketed value). -/
def parseProps : Nat → Str → Except String (List (String × List Str) × Str)
  | 0, _ => .error "parse fuel exhausted"
  | fuel + 1, l =>
      let l' := l.dropWhile isJsWs
      match l' with
      | c :: _ =>
          if isUpperCh c then
            let ident := l'.takeWhile isUpperCh
            let afterIdent := l'.dropWhile isUpperCh
            match parseValues (afterIdent.length + 1) afterIdent with
            | .error e => .error e
            | .ok ([], _) => .error "property without value"
            | .ok (vs, rest) =>
                match parseProps fuel rest with
                | .ok (ps, rest') => .ok ((String.mk ident, vs) :: ps, rest')
                | .error e => .error e
          else .ok ([], l')
      | [] => .ok ([], [])

/-- Modelled from the spec: a `;`-separated run of sequential nodes. -/
def parseNodeSeq : Nat → Str → Except String (List (List (String × List Str)) × Str)
  | 0, _ => .error "parse fuel exhausted"
  | fuel + 1, l =>
      let l' := l.dropWhile isJsWs
      match l' with
      | ';' :: r =>
          match parseProps (r.length + 1) r with
          | .error e => .error e
          | .ok (props, rest) =>
              match parseNodeSeq fuel rest with
              | .ok (ns, rest') => .ok (props :: ns, rest')
              | .error e => .error e
      | _ => .ok ([], l')

/-- Chain a nonempty node sequence: each node becomes the sole child of its
predecessor, the last takes the parenthesized subtrees as its children. -/
def linkNodes : List (List (String × List Str)) → List SgfNode → Option SgfNode
  | [], _ => none
  | [p], subs => some (.mk p subs)
  | p :: q :: rest, subs =>
      match linkNodes (q :: rest) subs with
      | some t => some (.mk p [t])
      | none => none

mutual

/-- Modelled from the spec: one parenthesized game (sub)tree —
`(` node-sequence subtree* `)`. -/
def parseGameTree : Nat → Str → Except String (SgfNode × Str)
  | 0, _ => .error "parse fuel exhausted"
  | fuel + 1, l =>
      let l' := l.dropWhile isJsWs
      match l' with
      | '(' :: r =>
          match parseNodeSeq (r.length + 1) r with
          | .error e => .error e
          | .ok (nodes, rest) =>
              match parseTreeList fuel rest with
              | .error e => .error e
              | .ok (subs, rest') =>
                  let rest'' := rest'.dropWhile isJsWs
                  match rest'' with
                  | ')' :: r2 =>
                      match linkNodes nodes subs with
                      | some t => .ok (t, r2)
                      | none => .error "empty node sequence in game tree"
                  | _ => .error "expected closing parenthesis"
      | _ => .error "expected opening parenthesis"

/-- Modelled from the spec: zero or more sibling subtrees. -/
def parseTreeList : Nat → Str → Except String (List SgfNode × Str)
  | 0, _ => .error "parse fuel exhausted"
  | fuel + 1, l =>
      let l' := l.dropWhile isJsWs
      match l' with
      | '(' :: _ =>
          match parseGameTree fuel l' with
          | .error e => .error e
          | .ok (t, rest) =>
              match parseTreeList fuel rest with
              | .ok (ts, rest') => .ok (t :: ts, rest')
              | .error e => .error e
      | _ => .ok ([], l')

end

/-- Modelled from the spec (§4.2): the `@sabaki/sgf` `parse` entry point —
the list of top-level game trees of the input (content after the last
closing parenthesis is ignored; the caller uses only the first tree). -/
def parseSgf (l : Str) : Except String (List SgfNode) :=
  match parseTreeList (l.length + 2) l with
  | .error e => .error e
  | .ok (ts, _) => .ok ts

/-! ## Error taxonomy and game-info extraction (`src/types/sgf.ts`,
`src/utils/sgfParser.ts`) -/

/-- The five fixed error kinds of `SgfErrorType`. -/
inductive SgfErrorType where
  | INVALID_FORMAT
  | UNSUPPORTED_GAME
  | PARSING_ERROR
  | INVALID_PARAMETERS
  | FILE_TOO_LARGE
deriving DecidableEq, Repr

/-- The `SgfError` payload surfaced to callers (the `details` field carries
no information any theorem below consumes and is omitted). -/
structure SgfError where
  type : SgfErrorType
  message : String
deriving DecidableEq, Repr

/-- `SgfGameInfo`: the fixed table of known tags extracted from the root
node (`src/types/sgf.ts`). -/
structure SgfGameInfo where
  GN : Option Str
  GC : Option Str
  EV : Option Str
  RO : Option Str
  DT : Option Str
  PC : Option Str
  SO : Option Str
  US : Option Str
  AN : Option Str
  CP : Option Str
  PB : Option Str
  PW : Option Str
  BR : Option Str
  WR : Option Str
  BT : Option Str
  WT : Option Str
  RU : Option Str
  SZ : Option JsNum
  HA : Option JsNum
  KM : Option JsNum
  TM : Option JsNum
  OT : Option Str
  RE : Option Str
  AP : Option Str
  CA : Option Str
  FF : Option JsNum
  GM : Option JsNum
  ST : Option JsNum
  VW : Option Str
deriving DecidableEq, Repr

/-- `SgfParseResult` from `src/types/sgf.ts`. -/
structure SgfParseResult where
  gameInfo : SgfGameInfo
  totalMoves : Nat
  boardSize : JsNum
  hasValidStructure : Bool
  warnings : Option (List String)
deriving DecidableEq, Repr

/-- `getPropertyValue`: first raw value of a tag, `undefined` when the tag
is missing or its value list is empty. -/
def getPropertyValue (props : List (String × List Str)) (key : String) : Option Str :=
  match props.lookup key with
  | none => none
  | some [] => none
  | some (v :: _) => some v

/-- `getNumericPropertyValue`: `parseFloat` of the first raw value, absent
when the tag is missing, its value empty (falsy), or the parse yields
`NaN`. -/
def getNumericPropertyValue (props : List (String × List Str)) (key : String) :
    Option JsNum :=
  match getPropertyValue props key with
  | none => none
  | some v => if v = [] then none else parseFloatJs v

/-- Display model for a JavaScript number inside a template string; exact
for the integral values every interpolated message below contains. -/
def jsNumShow : JsNum → String
  | .num q => if q.den = 1 then toString q.num else toString q
  | .inf => "Infinity"
  | .negInf => "-Infinity"

def qShow (q : ℚ) : String := jsNumShow (.num q)

/-- `MAX_FILE_SIZE` (100 KB) from `src/utils/sgfParser.ts`. -/
def MAX_FILE_SIZE : Nat := 100 * 1024

/-- The `GM` guard of `parseSgfGameInfo`:
`if (gameType && parseInt(gameType) !== 1)`. -/
def gmRejected (gameType : Option Str) : Bool :=
  match gameType with
  | none => false
  | some s => s != [] && parseIntJs s != some 1

/-- The body of `parseSgfGameInfo` after the `@sabaki/sgf` parse: game-type
guard, field table, move count, board-size defaulting and bound check,
warnings. -/
def parseTreeInfo (gameTree : SgfNode) : Except SgfError SgfParseResult :=
  let properties := gameTree.data
  let gameType := getPropertyValue properties "GM"
  if gmRejected gameType then
    .error ⟨.UNSUPPORTED_GAME,
      "Unsupported game type: " ++ String.mk (gameType.getD []) ++
        ". Only Go (GM[1]) is supported."⟩
  else
    let gameInfo : SgfGameInfo := {
      GN := getPropertyValue properties "GN"
      GC := getPropertyValue properties "GC"
      EV := getPropertyValue properties "EV"
      RO := getPropertyValue properties "RO"
      DT := getPropertyValue properties "DT"
      PC := getPropertyValue properties "PC"
      SO := getPropertyValue properties "SO"
      US := getPropertyValue properties "US"
      AN := getPropertyValue properties "AN"
      CP := getPropertyValue properties "CP"
      PB := getPropertyValue properties "PB"
      PW := getPropertyValue properties "PW"
      BR := getPropertyValue properties "BR"
      WR := getPropertyValue properties "WR"
      BT := getPropertyValue properties "BT"
      WT := getPropertyValue properties "WT"
      RU := getPropertyValue properties "RU"
      SZ := getNumericPropertyValue properties "SZ"
      HA := getNumericPropertyValue properties "HA"
      KM := getNumericPropertyValue properties "KM"
      TM := getNumericPropertyValue properties "TM"
      OT := getPropertyValue properties "OT"
      RE := getPropertyValue properties "RE"
      AP := getPropertyValue properties "AP"
      CA := getPropertyValue properties "CA"
      FF := getNumericPropertyValue properties "FF"
      GM := getNumericPropertyValue properties "GM"
      ST := getNumericPropertyValue properties "ST"
      VW := getPropertyValue properties "VW" }
    let totalMoves := countMoves gameTree
    let boardSize := gameInfo.SZ.getD (.num 19)
    if boardSize.ltQ 1 || boardSize.gtQ 361 then
      .error ⟨.INVALID_PARAMETERS,
        "Invalid board size: " ++ jsNumShow boardSize ++ ". Must be between 1 and 361."⟩
    else
      let warnings :=
        (if jsFalsyNum gameInfo.SZ then ["Board size (SZ) not specified, assuming 19x19"]
         else []) ++
        (if jsFalsyNum gameInfo.FF then ["File format (FF) not specified"] else [])
      .ok { gameInfo := gameInfo
            totalMoves := totalMoves
            boardSize := boardSize
            hasValidStructure := true
            warnings := if warnings = [] then none else some warnings }

/-- `parseSgfGameInfo` from `src/utils/sgfParser.ts`: size ceiling, parse,
first-tree selection, then `parseTreeInfo`.  A parser exception is caught
and re-thrown as `PARSING_ERROR`. -/
def parseSgfGameInfo (sgfContent : Str) : Except SgfError SgfParseResult :=
  if byteLen sgfContent > MAX_FILE_SIZE then
    .error ⟨.FILE_TOO_LARGE, "SGF file exceeds maximum size of 102400 bytes"⟩
  else
    match parseSgf sgfContent with
    | .error e => .error ⟨.PARSING_ERROR, "Failed to parse SGF: " ++ e⟩
    | .ok [] => .error ⟨.INVALID_FORMAT, "Invalid SGF format: empty game tree"⟩
    | .ok (gameTree :: _) => parseTreeInfo gameTree

instance {ε α : Type} [DecidableEq ε] [DecidableEq α] : DecidableEq (Except ε α) :=
  fun x y =>
    match x, y with
    | .ok a, .ok b =>
        if h : a = b then .isTrue (by rw [h]) else .isFalse (fun hh => h (by injection hh))
    | .error a, .error b =>
        if h : a = b then .isTrue (by rw [h]) else .isFalse (fun hh => h (by injection hh))
    | .ok _, .error _ => .isFalse (fun hh => Except.noConfusion hh)
    | .error _, .ok _ => .isFalse (fun hh => Except.noConfusion hh)

/-! ## Input validation (`src/utils/validation.ts`) -/

/-- Scan for the closing `]` of `\[.*?\]`: in a JavaScript regex without the
`s` flag, `.` matches anything except a line terminator. -/
def isLineTerm (c : Char) : Bool :=
  c == '\n' || c == '\r' || c == ' ' || c == ' '

def closeScan : Str → Bool
  | [] => false
  | c :: rest =>
      if c == ']' then true
      else if isLineTerm c then false
      else closeScan rest

/-- After a `;`: match `[A-Z]{1,2}\[` then a closing bracket
(the tail of the pattern `;[A-Z]{1,2}\[.*?\]`): one uppercase letter, then
either an immediate `[` or a second uppercase letter followed by `[`. -/
def checkTagBracket : Str → Bool
  | [] => false
  | c :: rest =>
      if isUpperCh c then
        match rest with
        | [] => false
        | d :: rest2 =>
            if d == '[' then closeScan rest2
            else if isUpperCh d then
              match rest2 with
              | [] => false
              | e :: rest3 => if e == '[' then closeScan rest3 else false
            else false
      else false

/-- `test` of the property pattern `;[A-Z]{1,2}\[.*?\]`: some position
starts a match. -/
def hasPropPattern : Str → Bool
  | [] => false
  | c :: rest => (c == ';' && checkTagBracket rest) || hasPropPattern rest

/-- `sgfContentSchema` combined with the error mapping of
`validateSgfContent`: the four checks in schema order, each with the
`SgfErrorType` that `validateSgfContent` derives from its issue
(`empty` → `INVALID_PARAMETERS`, `too large` → `FILE_TOO_LARGE`, the two
refinements → `INVALID_FORMAT`).  `none` means the content is accepted. -/
def validateSgfContent (s : Str) : Option SgfError :=
  if s = [] then
    some ⟨.INVALID_PARAMETERS, "SGF content cannot be empty"⟩
  else if jsLen s > 10 * 1024 * 1024 then
    some ⟨.FILE_TOO_LARGE, "SGF file too large (max 10MB)"⟩
  else if !(headIs (jsTrim s) '(' && lastIs (jsTrim s) ')') then
    some ⟨.INVALID_FORMAT, "SGF content must start with \"(\" and end with \")\""⟩
  else if !hasPropPattern s then
    some ⟨.INVALID_FORMAT, "SGF content must contain at least one valid property"⟩
  else none

/-- `sanitizeInput`: strip the control characters of the class
`[\u0000-\u0008\u000B\u000C\u000E-\u001F\u007F]`. -/
def isControlStripped (c : Char) : Bool :=
  c.toNat ≤ 0x08 || c.toNat == 0x0B || c.toNat == 0x0C ||
  (0x0E ≤ c.toNat && c.toNat ≤ 0x1F) || c.toNat == 0x7F

def sanitizeInput (l : Str) : Str := l.filter (fun c => !isControlStripped c)

/-- `validateSgfFormat` from `src/utils/sgfParser.ts`: trimmed content must
start with `(` and contain a `[` and a `]`. -/
def validateSgfFormat (sgfContent : Str) : Bool :=
  let trimmed := jsTrim sgfContent
  if !headIs trimmed '(' then false
  else if !(hasChar trimmed '[' && hasChar trimmed ']') then false
  else true

/-! ## The info tool (`src/tools/getSgfInfo.ts`) -/

/-- A JSON value in the `sgfContent` slot: a string or something else. -/
inductive JsStrVal where
  | str (s : Str)
  | nonString
deriving DecidableEq

/-- The raw argument object of the info tool: possibly not an object,
possibly missing `sgfContent`, possibly carrying extra keys. -/
inductive InfoArgs where
  | notAnObject
  | object (sgfContent : Option JsStrVal) (extraKeys : List String)
deriving DecidableEq

/-- The error type reported at the tool boundary: one of the five
`SgfErrorType` kinds, or the generic `UNEXPECTED_ERROR` of the defensive
catch-all.  In this embedding every raised failure is an `SgfError`, so the
generic constructor is present but never produced. -/
inductive RespErrType where
  | known (t : SgfErrorType)
  | unexpected
deriving DecidableEq, Repr

structure RespErr where
  type : RespErrType
  message : String
deriving DecidableEq, Repr

inductive InfoResult where
  | success (gameInfo : SgfGameInfo) (totalMoves : Nat) (boardSize : JsNum)
      (hasValidStructure : Bool) (warnings : Option (List String))
  | failure (e : RespErr)
deriving DecidableEq, Repr

/-- `validateGetSgfInfoArgs`: object shape, presence of `sgfContent`, the
content schema, then rejection of unexpected extra keys. -/
def validateGetSgfInfoArgs (args : InfoArgs) : Except SgfError Str :=
  match args with
  | .notAnObject => .error ⟨.INVALID_PARAMETERS, "Arguments must be an object"⟩
  | .object none _ => .error ⟨.INVALID_PARAMETERS, "Missing required parameter: sgfContent"⟩
  | .object (some .nonString) _ =>
      .error ⟨.INVALID_PARAMETERS, "SGF content must be a string"⟩
  | .object (some (.str s)) extra =>
      match validateSgfContent s with
      | some e => .error e
      | none =>
          if extra ≠ [] then
            .error ⟨.INVALID_PARAMETERS,
              "Unexpected properties: " ++ String.intercalate ", " extra⟩
          else .ok s

/-- `handleGetSgfInfo`: argument validation, sanitization, format check,
parse, and conversion of every raised `SgfError` into the single structured
error envelope. -/
def handleGetSgfInfo (args : InfoArgs) : InfoResult :=
  match validateGetSgfInfoArgs args with
  | .error e => .failure ⟨.known e.type, e.message⟩
  | .ok rawContent =>
      let sgfContent := sanitizeInput rawContent
      if !validateSgfFormat sgfContent then
        .failure ⟨.known .INVALID_FORMAT,
          "Invalid SGF format. SGF files must start with \"(\" and end with \")\" and contain at least one property."⟩
      else
        match parseSgfGameInfo sgfContent with
        | .error e => .failure ⟨.known e.type, e.message⟩
        | .ok r =>
            .success r.gameInfo r.totalMoves r.boardSize r.hasValidStructure r.warnings

/-! ## The diagram pipeline (`src/utils/diagramRenderer.ts`,
`src/tools/getSgfDiagram.ts`) -/

inductive Theme where
  | classic | modern | minimal
deriving DecidableEq, Repr

inductive Fmt where
  | png | svg
deriving DecidableEq, Repr

/-- `DiagramParameters` from `src/types/sgf.ts` (numbers as rationals). -/
structure DiagramParameters where
  moveNumber : Option ℚ := none
  startMove : Option ℚ := none
  endMove : Option ℚ := none
  width : Option ℚ := none
  height : Option ℚ := none
  coordLabels : Option Bool := none
  moveNumbers : Option Bool := none
  theme : Option Theme := none
  format : Option Fmt := none
  maxBoardSize : Option ℚ := none
deriving DecidableEq, Repr

/-- The options handed to the external renderer (`SgfToImageOptions`). -/
structure RenderOptions where
  sgf : Str
  moveNumber : Option ℚ
  width : ℚ
  height : ℚ
  coordLabels : Bool
  moveNumbers : Bool
  theme : Theme

/-- The external `sgf-to-image` renderer, modelled as an opaque function
from options to image bytes or a failure message. -/
def Renderer : Type := RenderOptions → Except String (List Nat)

/-- `DiagramResult` (the base64 transport encoding of the image bytes is
external presentation and is not modelled). -/
structure DiagramResult where
  imageData : List Nat
  mimeType : String
  width : ℚ
  height : ℚ
  movesCovered : ℚ
  boardSize : JsNum
deriving DecidableEq, Repr

/-- Exact subtraction on ℚ via `mkRat`, so that it evaluates inside the
kernel (`Rat.sub` itself does not). -/
def qSub (a b : ℚ) : ℚ := mkRat (a.num * b.den - b.num * a.den) (a.den * b.den)

/-- Exact addition on ℚ via `mkRat`. -/
def qAdd (a b : ℚ) : ℚ := mkRat (a.num * b.den + b.num * a.den) (a.den * b.den)

/-- The first failure of a sequence of independent checks (the source
throws at the first violated rule). -/
def firstSome : Option SgfError → Option SgfError → Option SgfError
  | some e, _ => some e
  | none, b => b

/-- The board-size ceiling check of `validateDiagramParameters`. -/
def boardCeilingCheck (params : DiagramParameters) (boardSize : JsNum) : Option SgfError :=
  let maxBoardSize := params.maxBoardSize.getD 361
  if boardSize.gtQ maxBoardSize then
    some ⟨.INVALID_PARAMETERS,
      "Board size " ++ jsNumShow boardSize ++ " exceeds maximum supported size of " ++
        qShow maxBoardSize⟩
  else none

/-- The 1-based `moveNumber` window check of `validateDiagramParameters`. -/
def moveNumberCheck (params : DiagramParameters) (totalMoves : Nat) : Option SgfError :=
  match params.moveNumber with
  | some m =>
      if m < 1 ∨ (totalMoves : ℚ) < m then
        some ⟨.INVALID_PARAMETERS,
          "Move number " ++ qShow m ++ " is out of range (1-" ++ toString totalMoves ++ ")"⟩
      else none
  | none => none

/-- The 1-based range window / order check of `validateDiagramParameters`
(only when both ends are present). -/
def rangeCheck (params : DiagramParameters) (totalMoves : Nat) : Option SgfError :=
  match params.startMove, params.endMove with
  | some s, some e =>
      if s < 1 ∨ (totalMoves : ℚ) < s then
        some ⟨.INVALID_PARAMETERS,
          "Start move " ++ qShow s ++ " is out of range (1-" ++ toString totalMoves ++ ")"⟩
      else if e < 1 ∨ (totalMoves : ℚ) < e then
        some ⟨.INVALID_PARAMETERS,
          "End move " ++ qShow e ++ " is out of range (1-" ++ toString totalMoves ++ ")"⟩
      else if e < s then
        some ⟨.INVALID_PARAMETERS,
          "Start move " ++ qShow s ++ " cannot be greater than end move " ++ qShow e⟩
      else none
  | _, _ => none

/-- The width bound check of `validateDiagramParameters`. -/
def widthCheck (params : DiagramParameters) : Option SgfError :=
  match params.width with
  | some w =>
      if w < 100 ∨ 2000 < w then
        some ⟨.INVALID_PARAMETERS, "Width " ++ qShow w ++ " is out of range (100-2000)"⟩
      else none
  | none => none

/-- The height bound check of `validateDiagramParameters`. -/
def heightCheck (params : DiagramParameters) : Option SgfError :=
  match params.height with
  | some h =>
      if h < 100 ∨ 2000 < h then
        some ⟨.INVALID_PARAMETERS, "Height " ++ qShow h ++ " is out of range (100-2000)"⟩
      else none
  | none => none

/-- `validateDiagramParameters`: the ordered, independent rule list —
renderer board-size ceiling, 1-based move-number window, 1-based range
window and order, then dimension bounds; the first violated rule reports.
`none` means all checks passed. -/
def validateDiagramParameters (params : DiagramParameters) (totalMoves : Nat)
    (boardSize : JsNum) : Option SgfError :=
  firstSome (boardCeilingCheck params boardSize)
    (firstSome (moveNumberCheck params totalMoves)
      (firstSome (rangeCheck params totalMoves)
        (firstSome (widthCheck params) (heightCheck params))))

/-- `initializeSgfToImage`: the module-level cache of the dynamically
imported renderer.  `lib` is the (fixed) outcome of loading the external
library; a load failure surfaces as `PARSING_ERROR`. -/
def initializeSgfToImage (lib : Except String Renderer) (cache : Option Renderer) :
    Option Renderer × Except SgfError Renderer :=
  match cache with
  | some r => (some r, .ok r)
  | none =>
      match lib with
      | .ok r => (some r, .ok r)
      | .error _ => (none, .error ⟨.PARSING_ERROR, "Failed to load sgf-to-image library"⟩)

/-- `generateDiagram`: parameter validation, renderer initialization,
option defaulting, the 1-based → 0-based conversion of the rendered move
index, the render call (failures wrapped as `PARSING_ERROR`), and the
moves-covered computation. -/
def generateDiagram (lib : Except String Renderer) (cache : Option Renderer)
    (sgfContent : Str) (params : DiagramParameters) (totalMoves : Nat)
    (boardSize : JsNum) : Option Renderer × Except SgfError DiagramResult :=
  match validateDiagramParameters params totalMoves boardSize with
  | some e => (cache, .error e)
  | none =>
      match initializeSgfToImage lib cache with
      | (cache', .error e) => (cache', .error e)
      | (cache', .ok renderer) =>
          match renderer {
            sgf := sgfContent
            width := params.width.getD 600
            height := params.height.getD 600
            coordLabels := params.coordLabels != some false
            moveNumbers := params.moveNumbers != some false
            theme := params.theme.getD .classic
            moveNumber :=
              match params.moveNumber with
              | some m => some (qSub m 1)
              | none =>
                  match params.endMove with
                  | some e => some (qSub e 1)
                  | none => none } with
          | .error msg =>
              (cache', .error ⟨.PARSING_ERROR, "Failed to generate diagram: " ++ msg⟩)
          | .ok buf =>
              let movesCovered : ℚ :=
                match params.moveNumber with
                | some m => m
                | none =>
                    match params.startMove, params.endMove with
                    | some s, some e => qAdd (qSub e s) 1
                    | _, _ => (totalMoves : ℚ)
              (cache', .ok {
                imageData := buf
                mimeType := if params.format = some .svg then "image/svg+xml" else "image/png"
                width := params.width.getD 600
                height := params.height.getD 600
                movesCovered := movesCovered
                boardSize := boardSize })

/-- The raw argument object of the diagram tool (`handleGetSgfDiagram`'s
parameter list; `index.ts` forwards the MCP arguments unchecked, so the
content slot may hold a non-string). -/
structure DiagArgs where
  sgfContent : JsStrVal
  moveNumber : Option ℚ := none
  startMove : Option ℚ := none
  endMove : Option ℚ := none
  width : Option ℚ := none
  height : Option ℚ := none
  coordLabels : Option Bool := none
  moveNumbers : Option Bool := none
  theme : Option Theme := none
  format : Option Fmt := none

inductive DiagResult where
  | success (mimeType : String) (width height : ℚ) (movesCovered : ℚ)
      (boardSize : JsNum) (parameters : DiagramParameters) (imageData : List Nat)
  | failure (e : RespErr)
deriving DecidableEq, Repr

/-- `handleGetSgfDiagram`: content presence/emptiness checks, format
validation, parse, parameter assembly (`format` defaulted to `png`,
`maxBoardSize` pinned to 361), the three selector-combination checks, then
the diagram pipeline; every raised `SgfError` becomes the structured error
envelope. -/
def handleGetSgfDiagram (lib : Except String Renderer) (cache : Option Renderer)
    (args : DiagArgs) : Option Renderer × DiagResult :=
  match args.sgfContent with
  | .nonString =>
      (cache, .failure ⟨.known .INVALID_PARAMETERS,
        "Missing or invalid sgfContent parameter. Must be a non-empty string."⟩)
  | .str rawContent =>
      if rawContent = [] then
        (cache, .failure ⟨.known .INVALID_PARAMETERS,
          "Missing or invalid sgfContent parameter. Must be a non-empty string."⟩)
      else
        let sgfContent := jsTrim rawContent
        if sgfContent = [] then
          (cache, .failure ⟨.known .INVALID_PARAMETERS, "SGF content cannot be empty."⟩)
        else if !validateSgfFormat sgfContent then
          (cache, .failure ⟨.known .INVALID_FORMAT,
            "Invalid SGF format. SGF files must start with \"(\" and end with \")\" and contain at least one property."⟩)
        else
          match parseSgfGameInfo sgfContent with
          | .error e => (cache, .failure ⟨.known e.type, e.message⟩)
          | .ok parseResult =>
              let diagramParams : DiagramParameters := {
                moveNumber := args.moveNumber
                startMove := args.startMove
                endMove := args.endMove
                width := args.width
                height := args.height
                coordLabels := args.coordLabels
                moveNumbers := args.moveNumbers
                theme := args.theme
                format := some (args.format.getD .png)
                maxBoardSize := some 361 }
              if args.moveNumber.isSome && (args.startMove.isSome || args.endMove.isSome) then
                (cache, .failure ⟨.known .INVALID_PARAMETERS,
                  "Cannot specify both moveNumber and move range (startMove/endMove). Use one or the other."⟩)
              else if args.startMove.isSome && !args.endMove.isSome then
                (cache, .failure ⟨.known .INVALID_PARAMETERS,
                  "startMove requires endMove to be specified for range display."⟩)
              else if args.endMove.isSome && !args.startMove.isSome then
                (cache, .failure ⟨.known .INVALID_PARAMETERS,
                  "endMove requires startMove to be specified for range display."⟩)
              else
                match generateDiagram lib cache sgfContent diagramParams
                    parseResult.totalMoves parseResult.boardSize with
                | (cache', .error e) => (cache', .failure ⟨.known e.type, e.message⟩)
                | (cache', .ok d) =>
                    (cache', .success d.mimeType d.width d.height d.movesCovered
                      d.boardSize diagramParams d.imageData)

/-! ## The schema gate of the diagram tool (`getSgfDiagramArgsSchema`) -/

/-- One optional numeric field under `z.number().int().min(lo).max(hi)`. -/
def zodNumBound (v : Option ℚ) (lo hi : ℚ) : Bool :=
  match v with
  | none => true
  | some q => q.den == 1 && decide (lo ≤ q) && decide (q ≤ hi)

/-- `getSgfDiagramArgsSchema`: the per-field bound checks and the three
refinements (range order, single-move/range mutual exclusion, range
completeness).  The `.strict()` closed-object shape and the enum fields are
carried by the `DiagArgs` type itself. -/
def zodDiagramArgsAccept (args : DiagArgs) : Bool :=
  (match args.sgfContent with
   | .str s => validateSgfContent s = none
   | .nonString => false) &&
  zodNumBound args.moveNumber 0 1000 &&
  zodNumBound args.startMove 0 1000 &&
  zodNumBound args.endMove 0 1000 &&
  zodNumBound args.width 100 2000 &&
  zodNumBound args.height 100 2000 &&
  (match args.startMove, args.endMove with
   | some s, some e => decide (s ≤ e)
   | _, _ => true) &&
  !(args.moveNumber.isSome && (args.startMove.isSome || args.endMove.isSome)) &&
  !(args.startMove.isSome && !args.endMove.isSome) &&
  !(args.endMove.isSome && !args.startMove.isSome)

/-! ## Request-sequence semantics (`src/index.ts`)

The only module-level mutable binding in the embedded sources is the
`sgfToImage` renderer cache in `src/utils/diagramRenderer.ts`; the server
state threaded between requests is exactly that cache. -/

inductive Request where
  | info (args : InfoArgs)
  | diagram (args : DiagArgs)

inductive Response where
  | info (r : InfoResult)
  | diagram (r : DiagResult)
deriving DecidableEq

/-- Dispatch of one MCP `call_tool` request. -/
def step (lib : Except String Renderer) (cache : Option Renderer) :
    Request → Option Renderer × Response
  | .info a => (cache, .info (handleGetSgfInfo a))
  | .diagram a =>
      match handleGetSgfDiagram lib cache a with
      | (cache', r) => (cache', .diagram r)

/-- Process a request sequence, threading the renderer cache. -/
def run (lib : Except String Renderer) :
    Option Renderer → List Request → List Response
  | _, [] => []
  | cache, r :: rs =>
      match step lib cache r with
      | (cache', resp) => resp :: run lib cache' rs

/-! ## Result projections used by the theorems -/

/-- The board size of a successful info response. -/
def infoBoardSize : InfoResult → Option JsNum
  | .success _ _ bs _ _ => some bs
  | .failure _ => none

/-- The total move count of a successful info response. -/
def infoTotalMoves : InfoResult → Option Nat
  | .success _ tm _ _ _ => some tm
  | .failure _ => none

/-- The warnings of a successful info response. -/
def infoWarnings : InfoResult → Option (Option (List String))
  | .success _ _ _ _ w => some w
  | .failure _ => none

/-- The game info of a successful info response. -/
def infoGameInfo : InfoResult → Option SgfGameInfo
  | .success gi _ _ _ _ => some gi
  | .failure _ => none

/-- Whether an info response is the success envelope. -/
def infoIsSuccess : InfoResult → Bool
  | .success _ _ _ _ _ => true
  | .failure _ => false

/-- The error type of a failed info response. -/
def infoErrType : InfoResult → Option RespErrType
  | .success _ _ _ _ _ => none
  | .failure e => some e.type

/-- The error type of a failed diagram response. -/
def diagErrType : DiagResult → Option RespErrType
  | .success _ _ _ _ _ _ _ => none
  | .failure e => some e.type

/-- Whether a diagram response is the error envelope. -/
def diagIsError : DiagResult → Bool
  | .success _ _ _ _ _ _ _ => false
  | .failure _ => true

/-- Padding character for the oversized-request instance: a control
character the sanitizer strips. -/
def padChar : Char := '\x01'

/-- The head of the oversized-request instance. -/
def c10Head : Str := "(;GM[1]SZ[19]".toList

/-- An sgfContent of 102415 UTF-8 bytes: a well-formed prefix, 102401
sanitizer-stripped control characters, and the closing parenthesis. -/
def c10Content : Str := c10Head ++ (List.replicate 102401 padChar ++ [')'])

/-! ## Shared lemmas -/

mutual

theorem countMoves_eq_countP : ∀ t : SgfNode,
    countMoves t = (allNodeData t).countP hasMoveProp
  | .mk data children => by
      simp only [countMoves, allNodeData, List.countP_cons,
        countMovesList_eq_countP children]
      cases h : hasMoveProp data <;> simp [h, Nat.add_comm]

theorem countMovesList_eq_countP : ∀ ts : List SgfNode,
    countMovesList ts = (allNodeDataList ts).countP hasMoveProp
  | [] => by simp [countMovesList, allNodeDataList]
  | t :: ts => by
      simp only [countMovesList, allNodeDataList, List.countP_append,
        countMoves_eq_countP t, countMovesList_eq_countP ts]

end

theorem parseTreeInfo_ok_board {t : SgfNode} {r : SgfParseResult}
    (h : parseTreeInfo t = .ok r) :
    r.boardSize.ltQ 1 = false ∧ r.boardSize.gtQ 361 = false := by
  simp only [parseTreeInfo] at h
  split at h
  · exact absurd h (by simp)
  · split at h
    · exact absurd h (by simp)
    · rename_i hcond
      injection h with h
      subst h
      simp only [Bool.or_eq_true, not_or, Bool.not_eq_true] at hcond
      exact hcond

theorem parseTreeInfo_error_type {t : SgfNode} {e : SgfError}
    (h : parseTreeInfo t = .error e) :
    e.type = .UNSUPPORTED_GAME ∨ e.type = .INVALID_PARAMETERS := by
  simp only [parseTreeInfo] at h
  split at h
  · injection h with h
    subst h
    exact Or.inl rfl
  · split at h
    · injection h with h
      subst h
      exact Or.inr rfl
    · exact absurd h (by simp)

theorem parseSgfGameInfo_ok_board {c : Str} {r : SgfParseResult}
    (h : parseSgfGameInfo c = .ok r) :
    r.boardSize.ltQ 1 = false ∧ r.boardSize.gtQ 361 = false := by
  unfold parseSgfGameInfo at h
  split at h
  · exact absurd h (by simp)
  · split at h
    · exact absurd h (by simp)
    · exact absurd h (by simp)
    · exact parseTreeInfo_ok_board h

theorem parseSgfGameInfo_error_no_size {c : Str} {e : SgfError}
    (hb : ¬ byteLen c > 102400) (h : parseSgfGameInfo c = .error e) :
    e.type ≠ .FILE_TOO_LARGE := by
  unfold parseSgfGameInfo at h
  rw [if_neg (by simpa [MAX_FILE_SIZE] using hb)] at h
  split at h
  · injection h with h
    subst h
    simp
  · injection h with h
    subst h
    simp
  · rcases parseTreeInfo_error_type h with h' | h' <;> simp [h']

theorem jsnum_bound_num {b : JsNum} (h1 : b.ltQ 1 = false) (h2 : b.gtQ 361 = false) :
    ∃ q : ℚ, b = .num q ∧ 1 ≤ q ∧ q ≤ 361 := by
  cases b with
  | num q =>
      refine ⟨q, rfl, ?_, ?_⟩
      · simp only [JsNum.ltQ, decide_eq_false_iff_not, not_lt] at h1
        exact h1
      · simp only [JsNum.gtQ, decide_eq_false_iff_not, not_lt] at h2
        exact h2
  | inf => simp [JsNum.gtQ] at h2
  | negInf => simp [JsNum.ltQ] at h1

/-! ## Claim theorems -/

/-- C3: the move counter returns the number of nodes, across all variation
branches, whose properties contain a move-placement tag (`B` or `W`) — so
nodes carrying only setup-stone tags such as `AB` are never counted — and on
the two literal inputs it reports 1 (handicap game, four `AB` stones, one
`W` move) and 3 (one `B` move plus one `W` move in each of two branches).
The tree parser feeding the counter is modelled from the spec. -/
theorem C3_move_counter :
    (∀ t : SgfNode, countMoves t = (allNodeData t).countP hasMoveProp) ∧
    (parseSgfGameInfo "(;FF[4]GM[1]SZ[19]HA[4]AB[dd][pd][dp][pp];W[qf])".toList).map
      (fun r => r.totalMoves) = .ok 1 ∧
    (parseSgfGameInfo "(;FF[4]GM[1]SZ[19];B[dd](;W[pd])(;W[dp]))".toList).map
      (fun r => r.totalMoves) = .ok 3 :=
  ⟨countMoves_eq_countP, by decide, by decide⟩

/-- C7: for every argument value each handler returns exactly one outcome —
a single success payload or a single structured error — and, stronger than
the claim demands, every error it produces carries one of the five fixed
`SgfErrorType` kinds (the generic `UNEXPECTED_ERROR` catch-all is never
reached because every internal failure is a typed `SgfError`). -/
theorem C7_single_outcome :
    (∀ args : InfoArgs,
      (∃ gi tm bs hv w, handleGetSgfInfo args = .success gi tm bs hv w) ∨
      (∃ t m, handleGetSgfInfo args = .failure ⟨.known t, m⟩)) ∧
    (∀ (lib : Except String Renderer) (cache : Option Renderer) (args : DiagArgs),
      (∃ mt w h mc bs p img,
        (handleGetSgfDiagram lib cache args).2 = .success mt w h mc bs p img) ∨
      (∃ t m, (handleGetSgfDiagram lib cache args).2 = .failure ⟨.known t, m⟩)) := by
  constructor
  · intro args
    cases hv : validateGetSgfInfoArgs args with
    | error e =>
        right
        exact ⟨e.type, e.message, by simp [handleGetSgfInfo, hv]⟩
    | ok raw =>
        simp only [handleGetSgfInfo, hv]
        split
        · exact Or.inr ⟨_, _, rfl⟩
        · split
          · exact Or.inr ⟨_, _, rfl⟩
          · exact Or.inl ⟨_, _, _, _, _, rfl⟩
  · intro lib cache args
    obtain ⟨sc, mn, sm, em, w, hgt, cl, mnums, th, fm⟩ := args
    cases sc with
    | nonString => exact Or.inr ⟨_, _, rfl⟩
    | str raw =>
        simp only [handleGetSgfDiagram]
        split
        · exact Or.inr ⟨_, _, rfl⟩
        · split
          · exact Or.inr ⟨_, _, rfl⟩
          · split
            · exact Or.inr ⟨_, _, rfl⟩
            · split
              · exact Or.inr ⟨_, _, rfl⟩
              · split
                · exact Or.inr ⟨_, _, rfl⟩
                · split
                  · exact Or.inr ⟨_, _, rfl⟩
                  · split
                    · exact Or.inr ⟨_, _, rfl⟩
                    · split
                      · exact Or.inr ⟨_, _, rfl⟩
                      · exact Or.inl ⟨_, _, _, _, _, _, _, rfl⟩

theorem run_info_get {lib : Except String Renderer} {s : Option Renderer}
    {reqs : List Request} {i : Nat} {a : InfoArgs}
    (h : reqs.get? i = some (.info a)) :
    (run lib s reqs).get? i = some (.info (handleGetSgfInfo a)) := by
  induction reqs generalizing s i with
  | nil => simp at h
  | cons r rs ih =>
      cases i with
      | zero =>
          simp only [List.get?] at h
          injection h with h
          subst h
          simp [run, step]
      | succ n =>
          simp only [List.get?] at h
          rcases hstep : step lib s r with ⟨c', resp⟩
          simp only [run, hstep, List.get?]
          exact ih h

/-- C8: the info operation is deterministic and stateless — in any two runs
of the server (any renderer-library outcome, any initial renderer cache, any
surrounding requests), the responses to info requests with equal argument
objects are identical. -/
theorem C8_info_deterministic
    (lib₁ lib₂ : Except String Renderer) (s₁ s₂ : Option Renderer)
    (reqs₁ reqs₂ : List Request) (i j : Nat) (a : InfoArgs)
    (h₁ : reqs₁.get? i = some (.info a)) (h₂ : reqs₂.get? j = some (.info a)) :
    (run lib₁ s₁ reqs₁).get? i = (run lib₂ s₂ reqs₂).get? j := by
  rw [run_info_get h₁, run_info_get h₂]

/-- Witness for C8: the same info request embedded in two different runs —
different library outcomes, caches and surrounding requests — yields the
same response. -/
theorem C8_info_deterministic_witness :
    (run (.error "load failure") none [Request.info .notAnObject]).get? 0 =
      (run (.ok fun _ => .ok []) none
        [Request.diagram { sgfContent := .nonString }, Request.info .notAnObject]).get? 1 :=
  C8_info_deterministic _ _ _ _ _ _ _ _ _ rfl rfl

/-- Counterexample to C2: `validateSgfFormat` accepts content that does not
end with `)` and content with no `;TAG[...]` property occurrence, so the
text validator does not require either condition. -/
theorem C2_counterexample :
    validateSgfFormat "(;B[aa]".toList = true ∧
    lastIs (jsTrim "(;B[aa]".toList) ')' = false ∧
    validateSgfFormat "(x[y])".toList = true ∧
    hasPropPattern "(x[y])".toList = false :=
  ⟨by decide, by decide, by decide, by decide⟩

/-- C2 (amended): the diagram-path text validator `validateSgfFormat`
accepts exactly the inputs whose trimmed content begins with `(` and
contains at least one `[` and one `]` — with no closing-parenthesis or
property-pattern requirement — and any input failing this is rejected by the
diagram handler with `INVALID_FORMAT` before parsing.  (The info path's
content schema separately enforces the trailing `)` and the
`;[A-Z]{1,2}[...]` pattern.) -/
theorem C2_text_validator :
    (∀ s : Str, validateSgfFormat s = true ↔
      (headIs (jsTrim s) '(' = true ∧ hasChar (jsTrim s) '[' = true ∧
        hasChar (jsTrim s) ']' = true)) ∧
    (∀ (lib : Except String Renderer) (cache : Option Renderer) (args : DiagArgs)
        (raw : Str), args.sgfContent = .str raw → raw ≠ [] → jsTrim raw ≠ [] →
      validateSgfFormat (jsTrim raw) = false →
      (handleGetSgfDiagram lib cache args).2 =
        .failure ⟨.known .INVALID_FORMAT,
          "Invalid SGF format. SGF files must start with \"(\" and end with \")\" and contain at least one property."⟩) := by
  constructor
  · intro s
    simp only [validateSgfFormat]
    cases h1 : headIs (jsTrim s) '(' <;> cases h2 : hasChar (jsTrim s) '[' <;>
      cases h3 : hasChar (jsTrim s) ']' <;> simp [h1, h2, h3]
  · intro lib cache args raw hsc hraw htrim hval
    simp [handleGetSgfDiagram, hsc, hraw, htrim, hval]

/-- Witness for C2 (amended): content whose trimmed form lacks a bracket is
rejected by the diagram handler with `INVALID_FORMAT`. -/
theorem C2_text_validator_witness :
    ("(;x".toList ≠ ([] : Str)) ∧ jsTrim "(;x".toList ≠ [] ∧
    validateSgfFormat (jsTrim "(;x".toList) = false ∧
    (handleGetSgfDiagram (.error "load failure") none
        { sgfContent := .str "(;x".toList }).2 =
      .failure ⟨.known .INVALID_FORMAT,
        "Invalid SGF format. SGF files must start with \"(\" and end with \")\" and contain at least one property."⟩ :=
  ⟨by decide, by decide, by decide,
    C2_text_validator.2 _ _ _ _ rfl (by decide) (by decide) (by decide)⟩

/-- Counterexample to C6: a diagram request carrying both `moveNumber` and a
range but invalid content is rejected with `INVALID_FORMAT`, not
`INVALID_PARAMETERS`. -/
theorem C6_counterexample :
    (handleGetSgfDiagram (.error "load failure") none
        { sgfContent := .str "x".toList, moveNumber := some 1,
          startMove := some 1, endMove := some 1 }).2 =
      .failure ⟨.known .INVALID_FORMAT,
        "Invalid SGF format. SGF files must start with \"(\" and end with \")\" and contain at least one property."⟩ ∧
    SgfErrorType.INVALID_FORMAT ≠ SgfErrorType.INVALID_PARAMETERS :=
  ⟨by decide, by decide⟩

/-- C6 (amended): a diagram request with `moveNumber` and at least one range
endpoint is always rejected (it never succeeds, whatever the index values),
and whenever the content itself passes format validation and parsing the
rejection is `INVALID_PARAMETERS` with the mutual-exclusion message. -/
theorem C6_mutual_exclusion
    (lib : Except String Renderer) (cache : Option Renderer) (args : DiagArgs)
    (hm : args.moveNumber.isSome = true)
    (hse : args.startMove.isSome = true ∨ args.endMove.isSome = true) :
    diagIsError (handleGetSgfDiagram lib cache args).2 = true ∧
    (∀ (raw : Str) (tm : Nat), args.sgfContent = .str raw →
      validateSgfFormat (jsTrim raw) = true →
      (parseSgfGameInfo (jsTrim raw)).map (fun r => r.totalMoves) = .ok tm →
      (handleGetSgfDiagram lib cache args).2 =
        .failure ⟨.known .INVALID_PARAMETERS,
          "Cannot specify both moveNumber and move range (startMove/endMove). Use one or the other."⟩) := by
  have hcond : (args.moveNumber.isSome &&
      (args.startMove.isSome || args.endMove.isSome)) = true := by
    rcases hse with h | h <;> simp [hm, h]
  constructor
  · cases hsc : args.sgfContent with
    | nonString => simp [handleGetSgfDiagram, hsc, diagIsError]
    | str raw =>
        by_cases hraw : raw = []
        · simp [handleGetSgfDiagram, hsc, hraw, diagIsError]
        · by_cases htrim : jsTrim raw = []
          · simp [handleGetSgfDiagram, hsc, hraw, htrim, diagIsError]
          · by_cases hfmt : validateSgfFormat (jsTrim raw) = true
            · cases hp : parseSgfGameInfo (jsTrim raw) with
              | error e =>
                  simp [handleGetSgfDiagram, hsc, hraw, htrim, hfmt, hp, diagIsError]
              | ok pr =>
                  simp [handleGetSgfDiagram, hsc, hraw, htrim, hfmt, hp, hcond,
                    diagIsError]
            · rw [Bool.not_eq_true] at hfmt
              simp [handleGetSgfDiagram, hsc, hraw, htrim, hfmt, diagIsError]
  · intro raw tm hsc hval hparse
    cases hp : parseSgfGameInfo (jsTrim raw) with
    | error e =>
        rw [hp] at hparse
        simp [Except.map] at hparse
    | ok pr =>
        have hraw : raw ≠ [] := by
          intro h
          rw [h] at hval
          exact absurd hval (by decide)
        have htrim : jsTrim raw ≠ [] := by
          intro h
          rw [h] at hval
          exact absurd hval (by decide)
        simp [handleGetSgfDiagram, hsc, hraw, htrim, hval, hp, hcond]

/-- C9: the argument schema accepts `moveNumber` 0 (its floor is 0), yet for
every game record that passes format validation and parsing, a diagram
request with `moveNumber` 0 is rejected with `INVALID_PARAMETERS` and a
message naming the 1-based range `1-totalMoves`: the resolver's effective
indexing convention is 1-based. -/
theorem C9_zero_move_number :
    (∀ raw : Str, validateSgfContent raw = none →
      zodDiagramArgsAccept { sgfContent := .str raw, moveNumber := some 0 } = true) ∧
    (∀ (lib : Except String Renderer) (cache : Option Renderer) (raw : Str) (tm : Nat),
      validateSgfFormat (jsTrim raw) = true →
      (parseSgfGameInfo (jsTrim raw)).map (fun r => r.totalMoves) = .ok tm →
      (handleGetSgfDiagram lib cache
          { sgfContent := .str raw, moveNumber := some 0 }).2 =
        .failure ⟨.known .INVALID_PARAMETERS,
          "Move number 0 is out of range (1-" ++ toString tm ++ ")"⟩) := by
  constructor
  · intro raw h
    simp only [zodDiagramArgsAccept, h]
    decide
  · intro lib cache raw tm hval hparse
    cases hp : parseSgfGameInfo (jsTrim raw) with
    | error e =>
        rw [hp] at hparse
        simp [Except.map] at hparse
    | ok pr =>
        rw [hp] at hparse
        simp [Except.map] at hparse
        have hraw : raw ≠ [] := by
          intro h
          rw [h] at hval
          exact absurd hval (by decide)
        have htrim : jsTrim raw ≠ [] := by
          intro h
          rw [h] at hval
          exact absurd hval (by decide)
        have hboard := (parseSgfGameInfo_ok_board hp).2
        have hmsg : ("Move number " ++ qShow 0 ++ " is out of range (1-") =
            "Move number 0 is out of range (1-" := by decide
        simp [handleGetSgfDiagram, hraw, htrim, hval, hp, generateDiagram,
          validateDiagramParameters, boardCeilingCheck, moveNumberCheck, firstSome,
          hboard, hmsg, hparse]

/-- Witness for C6 (amended): a request with `moveNumber` and a full range
over a valid one-move game is rejected with `INVALID_PARAMETERS` and the
mutual-exclusion message. -/
theorem C6_mutual_exclusion_witness :
    diagIsError (handleGetSgfDiagram (.ok fun _ => .ok []) none
      { sgfContent := .str "(;GM[1];B[aa])".toList, moveNumber := some 1,
        startMove := some 1, endMove := some 1 }).2 = true ∧
    (handleGetSgfDiagram (.ok fun _ => .ok []) none
      { sgfContent := .str "(;GM[1];B[aa])".toList, moveNumber := some 1,
        startMove := some 1, endMove := some 1 }).2 =
      .failure ⟨.known .INVALID_PARAMETERS,
        "Cannot specify both moveNumber and move range (startMove/endMove). Use one or the other."⟩ := by
  have h := C6_mutual_exclusion (.ok fun _ => .ok []) none
    { sgfContent := .str "(;GM[1];B[aa])".toList, moveNumber := some 1,
      startMove := some 1, endMove := some 1 } rfl (Or.inl rfl)
  exact ⟨h.1, h.2 _ 1 rfl (by decide) (by decide)⟩

/-- Witness for C9: over a two-move game, `moveNumber` 0 passes the schema
but the handler rejects it naming the range 1-2. -/
theorem C9_zero_move_number_witness :
    validateSgfContent "(;GM[1];B[aa];W[bb])".toList = none ∧
    zodDiagramArgsAccept
      { sgfContent := .str "(;GM[1];B[aa];W[bb])".toList, moveNumber := some 0 } = true ∧
    (handleGetSgfDiagram (.ok fun _ => .ok []) none
        { sgfContent := .str "(;GM[1];B[aa];W[bb])".toList, moveNumber := some 0 }).2 =
      .failure ⟨.known .INVALID_PARAMETERS, "Move number 0 is out of range (1-2)"⟩ := by
  refine ⟨by decide, C9_zero_move_number.1 _ (by decide), ?_⟩
  have h := C9_zero_move_number.2 (.ok fun _ => .ok []) none
    "(;GM[1];B[aa];W[bb])".toList 2 (by decide) (by decide)
  rw [h]
  decide

/-- Counterexample to C4: `SZ[19.5]` passes `parseFloat` and the 1–361
bound, so the info request succeeds with the non-integer board size 19.5. -/
theorem C4_counterexample :
    infoIsSuccess (handleGetSgfInfo (.object (some (.str "(;GM[1]SZ[19.5])".toList)) [])) =
      true ∧
    infoBoardSize (handleGetSgfInfo (.object (some (.str "(;GM[1]SZ[19.5])".toList)) [])) =
      some (.num (mkRat 39 2)) ∧
    (mkRat 39 2).den ≠ 1 :=
  ⟨by decide, by decide, by decide⟩

/-- C4 (amended): every successful info request reports a finite board-size
number `q` with `1 ≤ q ≤ 361` (not necessarily an integer); 361 is
accepted, 362 is rejected with `INVALID_PARAMETERS`, 0 and negative values
are rejected, and with no `SZ` tag the extractor reports 19 and records the
board-size warning. -/
theorem C4_board_size_bounds :
    (∀ (args : InfoArgs) (bs : JsNum),
      infoBoardSize (handleGetSgfInfo args) = some bs →
      ∃ q : ℚ, bs = .num q ∧ 1 ≤ q ∧ q ≤ 361) ∧
    infoBoardSize (handleGetSgfInfo (.object (some (.str "(;GM[1]SZ[361])".toList)) [])) =
      some (.num 361) ∧
    handleGetSgfInfo (.object (some (.str "(;GM[1]SZ[362])".toList)) []) =
      .failure ⟨.known .INVALID_PARAMETERS,
        "Invalid board size: 362. Must be between 1 and 361."⟩ ∧
    handleGetSgfInfo (.object (some (.str "(;GM[1]SZ[0])".toList)) []) =
      .failure ⟨.known .INVALID_PARAMETERS,
        "Invalid board size: 0. Must be between 1 and 361."⟩ ∧
    handleGetSgfInfo (.object (some (.str "(;GM[1]SZ[-5])".toList)) []) =
      .failure ⟨.known .INVALID_PARAMETERS,
        "Invalid board size: -5. Must be between 1 and 361."⟩ ∧
    infoBoardSize (handleGetSgfInfo (.object (some (.str "(;GM[1];B[aa])".toList)) [])) =
      some (.num 19) ∧
    infoWarnings (handleGetSgfInfo (.object (some (.str "(;GM[1];B[aa])".toList)) [])) =
      some (some ["Board size (SZ) not specified, assuming 19x19",
        "File format (FF) not specified"]) := by
  refine ⟨?_, by decide, by decide, by decide, by decide, by decide, by decide⟩
  intro args bs h
  cases hv : validateGetSgfInfoArgs args with
  | error e =>
      simp only [handleGetSgfInfo, hv] at h
      simp [infoBoardSize] at h
  | ok raw =>
      simp only [handleGetSgfInfo, hv] at h
      split at h
      · simp [infoBoardSize] at h
      · split at h
        · simp [infoBoardSize] at h
        · rename_i r heq
          simp only [infoBoardSize] at h
          injection h with h
          subst h
          obtain ⟨h1, h2⟩ := parseSgfGameInfo_ok_board heq
          exact jsnum_bound_num h1 h2

/-- Witness for C4 (amended): the `SZ[361]` boundary instance. -/
theorem C4_board_size_bounds_witness :
    infoBoardSize (handleGetSgfInfo (.object (some (.str "(;GM[1]SZ[361])".toList)) [])) =
      some (.num 361) ∧
    ∃ q : ℚ, JsNum.num 361 = .num q ∧ 1 ≤ q ∧ q ≤ 361 :=
  ⟨by decide, C4_board_size_bounds.1
    (.object (some (.str "(;GM[1]SZ[361])".toList)) []) (.num 361) (by decide)⟩

theorem lookup_filter_ne {β : Type} (props : List (String × β)) (k k' : String)
    (h : k' ≠ k) :
    (props.filter (fun p => p.1 != k)).lookup k' = props.lookup k' := by
  induction props with
  | nil => rfl
  | cons p ps ih =>
      obtain ⟨a, b⟩ := p
      by_cases hak : a = k
      · subst hak
        have hk'a : (k' == a) = false := by
          simpa using h
        simp [List.filter_cons, List.lookup, hk'a, ih]
      · have : (a != k) = true := by simpa using hak
        by_cases hk'a : k' = a
        · subst hk'a
          simp [List.filter_cons, this, List.lookup]
        · have hk'a' : (k' == a) = false := by simpa using hk'a
          simp [List.filter_cons, this, List.lookup, hk'a', ih]

theorem lookup_filter_self {β : Type} (props : List (String × β)) (k : String) :
    (props.filter (fun p => p.1 != k)).lookup k = none := by
  induction props with
  | nil => rfl
  | cons p ps ih =>
      obtain ⟨a, b⟩ := p
      by_cases hak : a = k
      · subst hak
        simp [List.filter_cons, ih]
      · have : (a != k) = true := by simpa using hak
        have hka : (k == a) = false := by
          simpa using fun hh => hak hh.symm
        simp [List.filter_cons, this, List.lookup, hka, ih]

theorem getPropertyValue_filter_ne (props : List (String × List Str)) (k k' : String)
    (h : k' ≠ k) :
    getPropertyValue (props.filter (fun p => p.1 != k)) k' = getPropertyValue props k' := by
  unfold getPropertyValue
  rw [lookup_filter_ne _ _ _ h]

theorem getNumericPropertyValue_filter_ne (props : List (String × List Str))
    (k k' : String) (h : k' ≠ k) :
    getNumericPropertyValue (props.filter (fun p => p.1 != k)) k' =
      getNumericPropertyValue props k' := by
  unfold getNumericPropertyValue
  rw [getPropertyValue_filter_ne _ _ _ h]

theorem getNumericPropertyValue_filter_self (props : List (String × List Str))
    (k : String) :
    getNumericPropertyValue (props.filter (fun p => p.1 != k)) k = none := by
  unfold getNumericPropertyValue getPropertyValue
  rw [lookup_filter_self]

/-- C5 (amended): for the numeric tags SZ, HA, KM, TM, FF and ST, a raw
value that fails to parse as a number is treated exactly as an absent tag —
the extraction outcome equals that of the same tree with the tag removed —
and a game carrying unparsable values in all six succeeds with all six
metadata fields absent.  (`GM` is excluded: its separate string-level guard
rejects non-numeric values with `UNSUPPORTED_GAME`, see the
counterexample.) -/
theorem C5_numeric_tag_absent :
    (∀ (props : List (String × List Str)) (children : List SgfNode) (k : String),
      (k = "SZ" ∨ k = "HA" ∨ k = "KM" ∨ k = "TM" ∨ k = "FF" ∨ k = "ST") →
      getNumericPropertyValue props k = none →
      parseTreeInfo (.mk (props.filter (fun p => p.1 != k)) children) =
        parseTreeInfo (.mk props children)) ∧
    infoIsSuccess (handleGetSgfInfo (.object (some
      (.str "(;GM[1]SZ[abc]HA[x]KM[--]TM[?]FF[junk]ST[zz];B[aa])".toList)) [])) = true ∧
    (infoGameInfo (handleGetSgfInfo (.object (some
      (.str "(;GM[1]SZ[abc]HA[x]KM[--]TM[?]FF[junk]ST[zz];B[aa])".toList)) []))).map
      (fun gi => [gi.SZ, gi.HA, gi.KM, gi.TM, gi.FF, gi.ST]) =
      some [none, none, none, none, none, none] := by
  refine ⟨?_, by decide, by decide⟩
  intro props children k hk hnum
  have hself : getNumericPropertyValue (props.filter (fun p => p.1 != k)) k = none :=
    getNumericPropertyValue_filter_self props k
  have hmove : hasMoveProp (props.filter (fun p => p.1 != k)) = hasMoveProp props := by
    unfold hasMoveProp
    rcases hk with rfl | rfl | rfl | rfl | rfl | rfl <;>
      rw [lookup_filter_ne _ _ _ (by decide), lookup_filter_ne _ _ _ (by decide)]
  have hcount : countMoves (.mk (props.filter (fun p => p.1 != k)) children) =
      countMoves (.mk props children) := by
    simp [countMoves, hmove]
  rcases hk with rfl | rfl | rfl | rfl | rfl | rfl <;>
    simp only [parseTreeInfo, SgfNode.data, hcount, hself, hnum,
      getPropertyValue_filter_ne, getNumericPropertyValue_filter_ne,
      ne_eq, String.reduceEq, not_false_eq_true]

/-- Counterexample to C5: a non-numeric `GM` value is not treated as absent;
the request fails with `UNSUPPORTED_GAME` because the game-type guard uses
`parseInt` on the raw string, and `NaN !== 1`. -/
theorem C5_counterexample :
    parseFloatJs "abc".toList = none ∧
    parseIntJs "abc".toList = none ∧
    handleGetSgfInfo (.object (some (.str "(;GM[abc]SZ[19])".toList)) []) =
      .failure ⟨.known .UNSUPPORTED_GAME,
        "Unsupported game type: abc. Only Go (GM[1]) is supported."⟩ :=
  ⟨by decide, by decide, by decide⟩

/-- Witness for C5 (amended): removing an unparsable `SZ` tag leaves the
extraction outcome unchanged. -/
theorem C5_numeric_tag_absent_witness :
    getNumericPropertyValue [("SZ", ["abc".toList])] "SZ" = none ∧
    parseTreeInfo (.mk (([("SZ", ["abc".toList])]).filter (fun p => p.1 != "SZ")) []) =
      parseTreeInfo (.mk [("SZ", ["abc".toList])] []) :=
  ⟨by decide, C5_numeric_tag_absent.1 _ _ _ (Or.inl rfl) (by decide)⟩

theorem qSub_eq (a b : ℚ) : qSub a b = a - b := by
  have hda : ((a.den : ℚ)) ≠ 0 := Nat.cast_ne_zero.mpr a.den_ne_zero
  have hdb : ((b.den : ℚ)) ≠ 0 := Nat.cast_ne_zero.mpr b.den_ne_zero
  unfold qSub
  conv_rhs => rw [← Rat.num_div_den a, ← Rat.num_div_den b]
  rw [div_sub_div _ _ hda hdb, Rat.mkRat_eq_div]
  push_cast
  ring_nf

theorem qAdd_eq (a b : ℚ) : qAdd a b = a + b := by
  have hda : ((a.den : ℚ)) ≠ 0 := Nat.cast_ne_zero.mpr a.den_ne_zero
  have hdb : ((b.den : ℚ)) ≠ 0 := Nat.cast_ne_zero.mpr b.den_ne_zero
  unfold qAdd
  conv_rhs => rw [← Rat.num_div_den a, ← Rat.num_div_den b]
  rw [div_add_div _ _ hda hdb, Rat.mkRat_eq_div]
  push_cast
  ring_nf

/-- Counterexample to C1: over a parsed one-move game, the range selector
`startMove 0, endMove 1` satisfies `a ≤ b ≤ MoveCount` yet the pipeline
rejects it with `INVALID_PARAMETERS` (the window is 1-based). -/
theorem C1_counterexample :
    (parseSgfGameInfo "(;GM[1];B[aa])".toList).map (fun r => r.totalMoves) = .ok 1 ∧
    ((0 : ℚ) ≤ (1 : ℚ)) ∧
    (generateDiagram (.ok fun _ => .ok []) none "(;GM[1];B[aa])".toList
      { startMove := some 0, endMove := some 1, format := some .png,
        maxBoardSize := some 361 } 1 (.num 19)).2 =
      .error ⟨.INVALID_PARAMETERS, "Start move 0 is out of range (1-1)"⟩ :=
  ⟨by decide, by decide, by decide⟩

/-- C1 (amended): for integers `1 ≤ a ≤ b ≤ MoveCount` and a board size
within the renderer ceiling, resolving the range selector through the
diagram pipeline (with the parameters the handler assembles and a renderer
that returns image bytes) succeeds and reports
`movesCovered = b − a + 1`. -/
theorem C1_range_round_trip (buf : List Nat) (content : Str) (a b : ℤ) (tm : Nat)
    (bs : JsNum) (ha : 1 ≤ a) (hab : a ≤ b) (hb : ((b : ℚ)) ≤ ((tm : ℚ)))
    (hbs : bs.gtQ 361 = false) :
    (generateDiagram (.ok fun _ => .ok buf) none content
        { startMove := some ((a : ℤ) : ℚ), endMove := some ((b : ℤ) : ℚ),
          format := some .png, maxBoardSize := some 361 } tm bs).2 =
      .ok { imageData := buf, mimeType := "image/png", width := 600, height := 600,
            movesCovered := ((b : ℚ)) - ((a : ℚ)) + 1, boardSize := bs } := by
  have haq : (1 : ℚ) ≤ ((a : ℤ) : ℚ) := by exact_mod_cast ha
  have habq : ((a : ℤ) : ℚ) ≤ ((b : ℤ) : ℚ) := by exact_mod_cast hab
  have h1 : ¬(((a : ℤ) : ℚ) < 1) := not_lt.mpr haq
  have h2 : ¬(((tm : ℕ) : ℚ) < ((a : ℤ) : ℚ)) := not_lt.mpr (le_trans habq hb)
  have h3 : ¬(((b : ℤ) : ℚ) < 1) := not_lt.mpr (le_trans haq habq)
  have h4 : ¬(((tm : ℕ) : ℚ) < ((b : ℤ) : ℚ)) := not_lt.mpr hb
  have h5 : ¬(((b : ℤ) : ℚ) < ((a : ℤ) : ℚ)) := not_lt.mpr habq
  have hval : validateDiagramParameters
      { startMove := some ((a : ℤ) : ℚ), endMove := some ((b : ℤ) : ℚ),
        format := some .png, maxBoardSize := some 361 } tm bs = none := by
    simp [validateDiagramParameters, boardCeilingCheck, moveNumberCheck,
      rangeCheck, widthCheck, heightCheck, firstSome, hbs, h1, h2, h3, h4, h5]
  have hmc : qAdd (qSub ((b : ℤ) : ℚ) ((a : ℤ) : ℚ)) 1 = ((b : ℚ)) - ((a : ℚ)) + 1 := by
    rw [qAdd_eq, qSub_eq]
  simp [generateDiagram, hval, initializeSgfToImage, hmc]

/-- Witness for C1 (amended): the one-move range `a = b = 1` over a one-move
game resolves with `movesCovered = 1`. -/
theorem C1_range_round_trip_witness :
    (generateDiagram (.ok fun _ => .ok []) none []
        { startMove := some ((1 : ℤ) : ℚ), endMove := some ((1 : ℤ) : ℚ),
          format := some .png, maxBoardSize := some 361 } 1 (.num 19)).2 =
      .ok { imageData := [], mimeType := "image/png", width := 600, height := 600,
            movesCovered := ((1 : ℚ)) - ((1 : ℚ)) + 1, boardSize := .num 19 } :=
  C1_range_round_trip [] [] 1 1 1 (.num 19) (by decide) (by decide) (by decide)
    (by decide)

theorem closeScan_append (l l' : Str) (h : closeScan l = true) :
    closeScan (l ++ l') = true := by
  induction l with
  | nil => simp [closeScan] at h
  | cons c rest ih =>
      simp only [closeScan, List.cons_append] at h ⊢
      by_cases h1 : (c == ']') = true
      · simp [h1]
      · by_cases h2 : isLineTerm c = true
        · simp [h1, h2] at h
        · simp only [h1, h2, Bool.false_eq_true, if_false] at h ⊢
          exact ih h

theorem checkTagBracket_append (l l' : Str) (h : checkTagBracket l = true) :
    checkTagBracket (l ++ l') = true := by
  cases l with
  | nil => simp [checkTagBracket] at h
  | cons c rest =>
      simp only [checkTagBracket, List.cons_append] at h ⊢
      by_cases hc : isUpperCh c = true
      · simp only [hc, if_true] at h ⊢
        cases rest with
        | nil => simp at h
        | cons d rest2 =>
            simp only [List.cons_append]
            by_cases hd : (d == '[') = true
            · simp only [hd, if_true] at h ⊢
              exact closeScan_append _ _ h
            · simp only [hd, Bool.false_eq_true, if_false] at h ⊢
              by_cases hdu : isUpperCh d = true
              · simp only [hdu, if_true] at h ⊢
                cases rest2 with
                | nil => simp at h
                | cons e rest3 =>
                    simp only [List.cons_append]
                    by_cases he : (e == '[') = true
                    · simp only [he, if_true] at h ⊢
                      exact closeScan_append _ _ h
                    · simp [he] at h
              · simp [hdu] at h
      · simp [hc] at h

theorem hasPropPattern_append (l l' : Str) (h : hasPropPattern l = true) :
    hasPropPattern (l ++ l') = true := by
  induction l with
  | nil => simp [hasPropPattern] at h
  | cons c rest ih =>
      simp only [hasPropPattern, List.cons_append, Bool.or_eq_true,
        Bool.and_eq_true] at h ⊢
      rcases h with ⟨h1, h2⟩ | h
      · exact Or.inl ⟨h1, checkTagBracket_append _ _ h2⟩
      · exact Or.inr (ih h)

theorem filter_replicate_none {p : Char → Bool} {c : Char} (hp : p c = false)
    (n : Nat) : (List.replicate n c).filter p = [] := by
  induction n with
  | zero => rfl
  | succ n ih => simp [List.replicate_succ, List.filter_cons, hp, ih]

theorem c10_shape : c10Content =
    '(' :: ((";GM[1]SZ[19]".toList ++ List.replicate 102401 padChar) ++ [')']) := by
  have h0 : c10Head = '(' :: ";GM[1]SZ[19]".toList := by decide
  rw [c10Content, h0, List.cons_append, List.append_assoc]

theorem c10_byteLen : byteLen c10Content = 102415 := by
  rw [c10Content, byteLen_append, byteLen_append, byteLen_replicate,
    show byteLen c10Head = 13 from by decide,
    show utf8Len padChar = 1 from by decide,
    show byteLen [')'] = 1 from by decide]

theorem c10_jsLen : jsLen c10Content = 102415 := by
  rw [c10Content, jsLen_append, jsLen_append, jsLen_replicate,
    show jsLen c10Head = 13 from by decide,
    show utf16Len padChar = 1 from by decide,
    show jsLen [')'] = 1 from by decide]

theorem c10_trim : jsTrim c10Content = c10Content :=
  jsTrim_eq_self _ '(' ')' _ c10_shape (by decide) (by decide)

theorem c10_headIs : headIs c10Content '(' = true := by
  rw [c10_shape]
  rfl

theorem c10_lastIs : lastIs c10Content ')' = true := by
  have h : c10Content =
      ('(' :: (";GM[1]SZ[19]".toList ++ List.replicate 102401 padChar)) ++ [')'] := by
    rw [c10_shape]
    exact (List.cons_append '(' _ _).symm
  rw [h]
  unfold lastIs
  rw [List.getLast?_concat]
  rfl

theorem c10_pattern : hasPropPattern c10Content = true := by
  unfold c10Content
  exact hasPropPattern_append _ _ (by decide)

theorem c10_ne_nil : c10Content ≠ [] := by
  rw [c10_shape]
  exact List.cons_ne_nil _ _

theorem c10_sanitize : sanitizeInput c10Content = "(;GM[1]SZ[19])".toList := by
  unfold c10Content sanitizeInput
  rw [List.filter_append, List.filter_append, filter_replicate_none (by decide)]
  decide

theorem c10_validateContent : validateSgfContent c10Content = none := by
  unfold validateSgfContent
  rw [if_neg c10_ne_nil,
    if_neg (show ¬ jsLen c10Content > 10 * 1024 * 1024 by rw [c10_jsLen]; norm_num),
    if_neg (show ¬ ((!(headIs (jsTrim c10Content) '(' && lastIs (jsTrim c10Content) ')')) = true) by
      rw [c10_trim, c10_headIs, c10_lastIs]; decide),
    if_neg (show ¬ ((!hasPropPattern c10Content) = true) by rw [c10_pattern]; decide)]

theorem validateGetSgfInfoArgs_ok {s : Str} (h : validateSgfContent s = none) :
    validateGetSgfInfoArgs (.object (some (.str s)) []) = .ok s := by
  simp [validateGetSgfInfoArgs, h]

theorem handleGetSgfInfo_success {s t : Str} {r : SgfParseResult}
    (h : validateSgfContent s = none) (hs : sanitizeInput s = t)
    (hv : validateSgfFormat t = true) (hp : parseSgfGameInfo t = .ok r) :
    handleGetSgfInfo (.object (some (.str s)) []) =
      .success r.gameInfo r.totalMoves r.boardSize r.hasValidStructure r.warnings := by
  simp [handleGetSgfInfo, validateGetSgfInfoArgs_ok h, hs, hv, hp]

/-- Counterexample to C10: an info request whose `sgfContent` is 102415
UTF-8 bytes — beyond the claimed 102400-byte ceiling — passes the schema
gate and succeeds, because sanitization shrinks the content below the
parser's ceiling before the byte check. -/
theorem C10_counterexample :
    byteLen c10Content > 102400 ∧
    jsLen c10Content ≤ 10 * 1024 * 1024 ∧
    infoIsSuccess (handleGetSgfInfo (.object (some (.str c10Content)) [])) = true := by
  refine ⟨by rw [c10_byteLen]; norm_num, by rw [c10_jsLen]; norm_num, ?_⟩
  have hOk : ∃ r, parseSgfGameInfo "(;GM[1]SZ[19])".toList = .ok r := by
    have hm : (parseSgfGameInfo "(;GM[1]SZ[19])".toList).map (fun r => r.totalMoves) =
        .ok 0 := by decide
    cases hR : parseSgfGameInfo "(;GM[1]SZ[19])".toList with
    | error e => rw [hR] at hm; simp [Except.map] at hm
    | ok r => exact ⟨r, rfl⟩
  obtain ⟨r, hR⟩ := hOk
  rw [handleGetSgfInfo_success c10_validateContent c10_sanitize (by decide) hR]
  rfl

theorem validateSgfContent_some_type {s : Str} {e : SgfError}
    (hlen : jsLen s ≤ 10 * 1024 * 1024) (h : validateSgfContent s = some e) :
    e.type ≠ .FILE_TOO_LARGE := by
  unfold validateSgfContent at h
  split_ifs at h with h1 h2 h3 h4
  · injection h with h
    subst h
    simp
  · omega
  · injection h with h
    subst h
    simp
  · injection h with h
    subst h
    simp

theorem firstSome_some {a b : Option SgfError} {e : SgfError}
    (h : firstSome a b = some e) : a = some e ∨ (a = none ∧ b = some e) := by
  cases a with
  | some x =>
      left
      simpa [firstSome] using h
  | none =>
      right
      exact ⟨rfl, by simpa [firstSome] using h⟩

theorem boardCeilingCheck_some {p : DiagramParameters} {bs : JsNum} {e : SgfError}
    (h : boardCeilingCheck p bs = some e) : e.type = .INVALID_PARAMETERS := by
  simp only [boardCeilingCheck] at h
  split_ifs at h
  injection h with h
  subst h
  rfl

theorem moveNumberCheck_some {p : DiagramParameters} {tm : Nat} {e : SgfError}
    (h : moveNumberCheck p tm = some e) : e.type = .INVALID_PARAMETERS := by
  unfold moveNumberCheck at h
  split at h
  · split_ifs at h
    injection h with h
    subst h
    rfl
  · exact absurd h (by simp)

theorem rangeCheck_some {p : DiagramParameters} {tm : Nat} {e : SgfError}
    (h : rangeCheck p tm = some e) : e.type = .INVALID_PARAMETERS := by
  unfold rangeCheck at h
  split at h
  · split_ifs at h <;> (injection h with h; subst h; rfl)
  · exact absurd h (by simp)

theorem widthCheck_some {p : DiagramParameters} {e : SgfError}
    (h : widthCheck p = some e) : e.type = .INVALID_PARAMETERS := by
  unfold widthCheck at h
  split at h
  · split_ifs at h
    injection h with h
    subst h
    rfl
  · exact absurd h (by simp)

theorem heightCheck_some {p : DiagramParameters} {e : SgfError}
    (h : heightCheck p = some e) : e.type = .INVALID_PARAMETERS := by
  unfold heightCheck at h
  split at h
  · split_ifs at h
    injection h with h
    subst h
    rfl
  · exact absurd h (by simp)

theorem validateDiagramParameters_some {p : DiagramParameters} {tm : Nat}
    {bs : JsNum} {e : SgfError} (h : validateDiagramParameters p tm bs = some e) :
    e.type = .INVALID_PARAMETERS := by
  unfold validateDiagramParameters at h
  rcases firstSome_some h with h' | ⟨_, h'⟩
  · exact boardCeilingCheck_some h'
  · rcases firstSome_some h' with h'' | ⟨_, h''⟩
    · exact moveNumberCheck_some h''
    · rcases firstSome_some h'' with h3 | ⟨_, h3⟩
      · exact rangeCheck_some h3
      · rcases firstSome_some h3 with h4 | ⟨_, h4⟩
        · exact widthCheck_some h4
        · exact heightCheck_some h4

theorem initializeSgfToImage_error {lib : Except String Renderer}
    {cache cache' : Option Renderer} {e : SgfError}
    (h : initializeSgfToImage lib cache = (cache', .error e)) :
    e.type = .PARSING_ERROR := by
  unfold initializeSgfToImage at h
  split at h
  · exact absurd h (by simp)
  · split at h
    · exact absurd h (by simp)
    · injection h with h1 h2
      injection h2 with h2
      subst h2
      rfl

theorem generateDiagram_error_type {lib : Except String Renderer}
    {cache : Option Renderer} {c : Str} {p : DiagramParameters} {tm : Nat}
    {bs : JsNum} {e : SgfError}
    (h : (generateDiagram lib cache c p tm bs).2 = .error e) :
    e.type = .INVALID_PARAMETERS ∨ e.type = .PARSING_ERROR := by
  unfold generateDiagram at h
  split at h
  · rename_i e' he
    simp only at h
    injection h with h
    subst h
    exact Or.inl (validateDiagramParameters_some he)
  · split at h
    · rename_i cache' e' hinit
      simp only at h
      injection h with h
      subst h
      exact Or.inr (initializeSgfToImage_error hinit)
    · repeat
        first
        | (subst h; exact Or.inr rfl)
        | simp at h
        | split at h

/-- C10 (amended): the 100 KiB ceiling applies to the processed content as
it reaches the parser — `parseSgfGameInfo` rejects exactly the inputs over
102400 UTF-8 bytes with `FILE_TOO_LARGE` — and no request whose raw
`sgfContent` is at or under 102400 bytes is ever rejected for size, on
either operation.  (A raw content over 102400 bytes can still succeed when
sanitization or trimming shrinks it, see the counterexample.) -/
theorem C10_size_ceiling :
    (∀ s : Str, byteLen s > 102400 →
      parseSgfGameInfo s =
        .error ⟨.FILE_TOO_LARGE, "SGF file exceeds maximum size of 102400 bytes"⟩) ∧
    (∀ (raw : Str) (extra : List String), byteLen raw ≤ 102400 →
      infoErrType (handleGetSgfInfo (.object (some (.str raw)) extra)) ≠
        some (.known .FILE_TOO_LARGE)) ∧
    (∀ (lib : Except String Renderer) (cache : Option Renderer) (args : DiagArgs)
        (raw : Str), args.sgfContent = .str raw → byteLen raw ≤ 102400 →
      diagErrType (handleGetSgfDiagram lib cache args).2 ≠
        some (.known .FILE_TOO_LARGE)) := by
  refine ⟨?_, ?_, ?_⟩
  · intro s h
    unfold parseSgfGameInfo
    rw [if_pos (by unfold MAX_FILE_SIZE; omega)]
  · intro raw extra h
    have hs : byteLen (sanitizeInput raw) ≤ 102400 := le_trans (byteLen_filter_le _ _) h
    have hlen : jsLen raw ≤ 10 * 1024 * 1024 :=
      le_trans (jsLen_le_byteLen raw) (le_trans h (by norm_num))
    cases hv : validateSgfContent raw with
    | some e =>
        have ht := validateSgfContent_some_type hlen hv
        have hres : handleGetSgfInfo (.object (some (.str raw)) extra) =
            .failure ⟨.known e.type, e.message⟩ := by
          simp [handleGetSgfInfo, validateGetSgfInfoArgs, hv]
        rw [hres]
        simpa [infoErrType] using ht
    | none =>
        cases extra with
        | cons x xs =>
            have hres : handleGetSgfInfo (.object (some (.str raw)) (x :: xs)) =
                .failure ⟨.known .INVALID_PARAMETERS,
                  "Unexpected properties: " ++ String.intercalate ", " (x :: xs)⟩ := by
              simp [handleGetSgfInfo, validateGetSgfInfoArgs, hv]
            rw [hres]
            simp [infoErrType]
        | nil =>
            by_cases hf : validateSgfFormat (sanitizeInput raw) = true
            · cases hp : parseSgfGameInfo (sanitizeInput raw) with
              | error e =>
                  have ht := parseSgfGameInfo_error_no_size (by omega) hp
                  have hres : handleGetSgfInfo (.object (some (.str raw)) []) =
                      .failure ⟨.known e.type, e.message⟩ := by
                    simp [handleGetSgfInfo, validateGetSgfInfoArgs_ok hv, hf, hp]
                  rw [hres]
                  simpa [infoErrType] using ht
              | ok r =>
                  rw [handleGetSgfInfo_success hv rfl hf hp]
                  simp [infoErrType]
            · rw [Bool.not_eq_true] at hf
              have hres : handleGetSgfInfo (.object (some (.str raw)) []) =
                  .failure ⟨.known .INVALID_FORMAT,
                    "Invalid SGF format. SGF files must start with \"(\" and end with \")\" and contain at least one property."⟩ := by
                simp [handleGetSgfInfo, validateGetSgfInfoArgs_ok hv, hf]
              rw [hres]
              simp [infoErrType]
  · intro lib cache args raw hsc h
    have htl : byteLen (jsTrim raw) ≤ 102400 := le_trans (byteLen_trim_le raw) h
    by_cases hraw : raw = []
    · have hres : (handleGetSgfDiagram lib cache args).2 =
          .failure ⟨.known .INVALID_PARAMETERS,
            "Missing or invalid sgfContent parameter. Must be a non-empty string."⟩ := by
        simp [handleGetSgfDiagram, hsc, hraw]
      rw [hres]
      simp [diagErrType]
    · by_cases htr : jsTrim raw = []
      · have hres : (handleGetSgfDiagram lib cache args).2 =
            .failure ⟨.known .INVALID_PARAMETERS, "SGF content cannot be empty."⟩ := by
          simp [handleGetSgfDiagram, hsc, hraw, htr]
        rw [hres]
        simp [diagErrType]
      · by_cases hf : validateSgfFormat (jsTrim raw) = true
        · cases hp : parseSgfGameInfo (jsTrim raw) with
          | error e =>
              have ht := parseSgfGameInfo_error_no_size (by omega) hp
              have hres : (handleGetSgfDiagram lib cache args).2 =
                  .failure ⟨.known e.type, e.message⟩ := by
                simp [handleGetSgfDiagram, hsc, hraw, htr, hf, hp]
              rw [hres]
              simpa [diagErrType] using ht
          | ok pr =>
              by_cases hx1 : (args.moveNumber.isSome &&
                  (args.startMove.isSome || args.endMove.isSome)) = true
              · simp only [Bool.and_eq_true, Bool.or_eq_true] at hx1
                have hres : (handleGetSgfDiagram lib cache args).2 =
                    .failure ⟨.known .INVALID_PARAMETERS,
                      "Cannot specify both moveNumber and move range (startMove/endMove). Use one or the other."⟩ := by
                  simp [handleGetSgfDiagram, hsc, hraw, htr, hf, hp, hx1]
                rw [hres]
                simp [diagErrType]
              · by_cases hx2 : (args.startMove.isSome && !args.endMove.isSome) = true
                · simp at hx2
                  simp [hx2.1] at hx1
                  have hres : (handleGetSgfDiagram lib cache args).2 =
                      .failure ⟨.known .INVALID_PARAMETERS,
                        "startMove requires endMove to be specified for range display."⟩ := by
                    simp [handleGetSgfDiagram, hsc, hraw, htr, hf, hp, hx1, hx2]
                  rw [hres]
                  simp [diagErrType]
                · by_cases hx3 : (args.endMove.isSome && !args.startMove.isSome) = true
                  · simp at hx3
                    simp [hx3.1] at hx1
                    have hres : (handleGetSgfDiagram lib cache args).2 =
                        .failure ⟨.known .INVALID_PARAMETERS,
                          "endMove requires startMove to be specified for range display."⟩ := by
                      simp [handleGetSgfDiagram, hsc, hraw, htr, hf, hp, hx1, hx2, hx3]
                    rw [hres]
                    simp [diagErrType]
                  · have hcond2 : ¬(args.startMove.isSome = true ∧ args.endMove = none) := by
                      rintro ⟨h1, h2⟩
                      exact hx2 (by simp [h1, h2])
                    have hcond3 : ¬(args.endMove.isSome = true ∧ args.startMove = none) := by
                      rintro ⟨h1, h2⟩
                      exact hx3 (by simp [h1, h2])
                    cases hg : generateDiagram lib cache (jsTrim raw)
                        { moveNumber := args.moveNumber, startMove := args.startMove,
                          endMove := args.endMove, width := args.width,
                          height := args.height, coordLabels := args.coordLabels,
                          moveNumbers := args.moveNumbers, theme := args.theme,
                          format := some (args.format.getD .png),
                          maxBoardSize := some 361 }
                        pr.totalMoves pr.boardSize with
                    | mk cache' res =>
                        cases res with
                        | error e =>
                            have ht := generateDiagram_error_type
                              (show (generateDiagram lib cache (jsTrim raw)
                                  { moveNumber := args.moveNumber,
                                    startMove := args.startMove,
                                    endMove := args.endMove, width := args.width,
                                    height := args.height,
                                    coordLabels := args.coordLabels,
                                    moveNumbers := args.moveNumbers,
                                    theme := args.theme,
                                    format := some (args.format.getD .png),
                                    maxBoardSize := some 361 }
                                  pr.totalMoves pr.boardSize).2 = .error e by rw [hg])
                            have hres : (handleGetSgfDiagram lib cache args).2 =
                                .failure ⟨.known e.type, e.message⟩ := by
                              simp [handleGetSgfDiagram, hsc, hraw, htr, hf, hp,
                                hx1, hcond2, hcond3, hg]
                            rw [hres]
                            rcases ht with h' | h' <;> simp [diagErrType, h']
                        | ok d =>
                            have hres : (handleGetSgfDiagram lib cache args).2 =
                                .success d.mimeType d.width d.height d.movesCovered
                                  d.boardSize
                                  { moveNumber := args.moveNumber,
                                    startMove := args.startMove,
                                    endMove := args.endMove, width := args.width,
                                    height := args.height,
                                    coordLabels := args.coordLabels,
                                    moveNumbers := args.moveNumbers,
                                    theme := args.theme,
                                    format := some (args.format.getD .png),
                                    maxBoardSize := some 361 } d.imageData := by
                              simp [handleGetSgfDiagram, hsc, hraw, htr, hf, hp,
                                hx1, hcond2, hcond3, hg]
                            rw [hres]
                            simp [diagErrType]
        · rw [Bool.not_eq_true] at hf
          have hres : (handleGetSgfDiagram lib cache args).2 =
              .failure ⟨.known .INVALID_FORMAT,
                "Invalid SGF format. SGF files must start with \"(\" and end with \")\" and contain at least one property."⟩ := by
            simp [handleGetSgfDiagram, hsc, hraw, htr, hf]
          rw [hres]
          simp [diagErrType]

/-- Witness for C10 (amended): an oversized raw input is rejected by the
parser with `FILE_TOO_LARGE`, and a small request is never rejected for
size. -/
theorem C10_size_ceiling_witness :
    byteLen (List.replicate 102401 'a') > 102400 ∧
    parseSgfGameInfo (List.replicate 102401 'a') =
      .error ⟨.FILE_TOO_LARGE, "SGF file exceeds maximum size of 102400 bytes"⟩ ∧
    infoErrType (handleGetSgfInfo (.object (some (.str "x".toList)) [])) ≠
      some (.known .FILE_TOO_LARGE) := by
  have hb : byteLen (List.replicate 102401 'a') > 102400 := by
    rw [byteLen_replicate, show utf8Len 'a' = 1 from by decide]
    norm_num
  exact ⟨hb, C10_size_ceiling.1 _ hb, C10_size_ceiling.2.1 "x".toList [] (by decide)⟩

end McpSgf
